import Mathlib

/-!
Shallow embedding of the Kubernetes watcher of the Cilium daemon
(daemon/k8s_watcher.go together with its pkg/k8s equality helpers).

The Go code is translated into executable Lean definitions: Go maps become
association lists with map-like lookup/upsert/erase, external side effects
(datapath calls, the service ID allocator, the policy engine, the status
write API) become an explicit event trace plus environment records whose
fields stand for the results returned by the external collaborators, and
Go errors become `Option String` (`none` is the nil error).
-/

namespace K8sWatcher

/-- Go errors are modelled by their message string; `none` is the nil error. -/
abbrev Err := String

/-- Association-list lookup, modelling a Go map read. -/
def alookup {α β : Type} [DecidableEq α] : List (α × β) → α → Option β
  | [], _ => none
  | p :: rest, key => if p.1 = key then some p.2 else alookup rest key

/-- Association-list upsert, modelling a Go map assignment. -/
def aupsert {α β : Type} [DecidableEq α] : List (α × β) → α → β → List (α × β)
  | [], key, val => [(key, val)]
  | p :: rest, key, val =>
    if p.1 = key then (key, val) :: rest else p :: aupsert rest key val

/-- Association-list erase, modelling the Go map delete builtin. -/
def aerase {α β : Type} [DecidableEq α] : List (α × β) → α → List (α × β)
  | [], _ => []
  | p :: rest, key => if p.1 = key then aerase rest key else p :: aerase rest key

/-- An IP address; only its family and its identity matter to the watcher.
`net.IP.To4() != nil` corresponds to the `v4` constructor. -/
inductive IP
  | v4 (a b c d : Nat)
  | v6 (s : String)
deriving DecidableEq

/-- Models the Go test `net.ParseIP(ip).To4() != nil`. -/
def IP.isV4 : IP → Bool
  | .v4 _ _ _ _ => true
  | .v6 _ => false

/-- Models `FEIP.To4() != nil` where FEIP may be a nil `net.IP`. -/
def ipOptIsV4 : Option IP → Bool
  | some ip => ip.isV4
  | none => false

/-- L4 protocol (loadbalancer.L4Type); only valid protocols are modelled, so
the `NewL4Addr` error branch for an unknown protocol string is dead code. -/
inductive L4Type
  | tcp
  | udp
deriving DecidableEq

/-- loadbalancer.FEPort: an L4 address together with the allocated service ID
(`id = 0` means "needs allocation"). -/
structure FEPort where
  protocol : L4Type
  port : Nat
  id : Nat
deriving DecidableEq

/-- loadbalancer.L4Addr. -/
structure L4Addr where
  protocol : L4Type
  port : Nat
deriving DecidableEq

/-- loadbalancer.K8sServiceNamespace. -/
structure K8sServiceNamespace where
  serviceName : String
  nspace : String
deriving DecidableEq

/-- loadbalancer.K8sServiceInfo.  `feIP = none` models a nil frontend
`net.IP` (for instance the result of `net.ParseIP` on the string None). -/
structure K8sServiceInfo where
  feIP : Option IP
  isHeadless : Bool
  labels : List (String × String)
  selector : List (String × String)
  ports : List (String × FEPort)
deriving DecidableEq

/-- loadbalancer.K8sServiceEndpoint: backend IP set and named backend ports. -/
structure K8sServiceEndpoint where
  beIPs : List IP
  ports : List (String × L4Addr)
deriving DecidableEq

/-- The per-daemon configuration bits read by the translated functions. -/
structure Config where
  disableK8sServices : Bool
  ipv4Disabled : Bool
  isLBEnabled : Bool
deriving DecidableEq

/-- Trace entries for the calls the load-balancer reconciliation path makes
into the datapath, the ID allocator and the policy engine. -/
inductive LBEvent
  | svcAdd (protocol : L4Type) (feIP : Option IP) (fePort : Nat) (feID : Nat)
      (backends : List (IP × L4Addr)) (addRevNAT : Bool)
  | svcDeleteByFrontend (protocol : L4Type) (feIP : Option IP) (fePort : Nat)
  | revNATDelete (id : Nat)
  | acquireID (protocol : L4Type) (feIP : Option IP) (fePort : Nat)
  | deleteID (id : Nat)
  | translateRules (revert : Bool)
  | triggerPolicyUpdates
deriving DecidableEq

/-- Results supplied by the external collaborators of the LB path:
`service.AcquireID` and `policy.TranslateRules`. -/
structure LBEnv where
  acquireID : L4Type → Option IP → Nat → Except Err Nat
  translateRules : K8sServiceNamespace → Bool → Option Err

/-- Translation of `areIPsConsistent`: the frontend family must be enabled
(only IPv4 can be disabled by configuration) and every backend IP must be of
the same family as the frontend. -/
def areIPsConsistent (ipv4Enabled isSvcIPv4 : Bool)
    (se : K8sServiceEndpoint) : Option Err :=
  if isSvcIPv4 then
    if !ipv4Enabled then
      some "Received an IPv4 k8s service but IPv4 is disabled in the cilium daemon"
    else if se.beIPs.any (fun ip => !ip.isV4) then
      some "Not all endpoints IPs are IPv4. Ignoring IPv4 service"
    else none
  else
    if se.beIPs.any (fun ip => ip.isV4) then
      some "Not all endpoints IPs are IPv6. Ignoring IPv6 service"
    else none

/-- Translation of the per-port loop of `delK8sSVCs`.  `processed` carries the
port numbers already handled (the `repPorts` map flipped to false). -/
def delLoop (feIP : Option IP) (processed : List Nat) :
    List (String × FEPort) → List LBEvent
  | [] => []
  | (_, fePort) :: rest =>
    if fePort.port ∈ processed then delLoop feIP processed rest
    else
      (if fePort.id ≠ 0 then [LBEvent.deleteID fePort.id] else [])
        ++ [LBEvent.svcDeleteByFrontend fePort.protocol feIP fePort.port,
            LBEvent.revNATDelete fePort.id]
        ++ delLoop feIP (fePort.port :: processed) rest

/-- Translation of `delK8sSVCs`.  Returns the error result and the trace of
external calls; errors from the datapath deletions themselves are only logged
by the Go code and therefore do not appear in the result. -/
def delK8sSVCs (cfg : Config) (svcInfo : K8sServiceInfo)
    (se : K8sServiceEndpoint) : Option Err × List LBEvent :=
  if cfg.disableK8sServices then (none, [])
  else if svcInfo.isHeadless then (none, [])
  else
    let isSvcIPv4 := ipOptIsV4 svcInfo.feIP
    match areIPsConsistent (!cfg.ipv4Disabled) isSvcIPv4 se with
    | some e => (some e, [])
    | none => (none, delLoop svcInfo.feIP [] svcInfo.ports)

/-- Builds the backend list of `addK8sSVCs`: each backend IP paired with the
endpoints port of the same name, or no backends when that port is absent. -/
def backendsFor (se : K8sServiceEndpoint) : Option L4Addr → List (IP × L4Addr)
  | none => []
  | some p => se.beIPs.map (fun ip => (ip, p))

/-- Translation of the per-port loop of `addK8sSVCs`.  Returns the rewritten
ports (the Go code mutates `fePort.ID` through the shared pointer) and the
trace.  A failing `AcquireID` makes the loop continue with the next port. -/
def addLoop (env : LBEnv) (feIP : Option IP) (se : K8sServiceEndpoint)
    (processed : List Nat) :
    List (String × FEPort) → List (String × FEPort) × List LBEvent
  | [] => ([], [])
  | (name, fePort) :: rest =>
    if fePort.port ∈ processed then
      let r := addLoop env feIP se processed rest
      ((name, fePort) :: r.1, r.2)
    else
      let k8sBEPort := alookup se.ports name
      let processed2 := fePort.port :: processed
      if fePort.id = 0 then
        match env.acquireID fePort.protocol feIP fePort.port with
        | .error _ =>
          let r := addLoop env feIP se processed2 rest
          ((name, fePort) :: r.1,
            LBEvent.acquireID fePort.protocol feIP fePort.port :: r.2)
        | .ok newID =>
          let fePort2 : FEPort := { fePort with id := newID }
          let r := addLoop env feIP se processed2 rest
          ((name, fePort2) :: r.1,
            LBEvent.acquireID fePort.protocol feIP fePort.port
              :: LBEvent.svcAdd fePort.protocol feIP fePort.port newID
                   (backendsFor se k8sBEPort) true
              :: r.2)
      else
        let r := addLoop env feIP se processed2 rest
        ((name, fePort) :: r.1,
          LBEvent.svcAdd fePort.protocol feIP fePort.port fePort.id
            (backendsFor se k8sBEPort) true :: r.2)

/-- Translation of `addK8sSVCs`.  Returns the error result, the service info
with the port IDs the loop assigned (modelling the in-place mutation of the
stored `*FEPort` values) and the trace of external calls. -/
def addK8sSVCs (cfg : Config) (env : LBEnv) (svcInfo : K8sServiceInfo)
    (se : K8sServiceEndpoint) : Option Err × K8sServiceInfo × List LBEvent :=
  if cfg.disableK8sServices then (none, svcInfo, [])
  else if svcInfo.isHeadless then (none, svcInfo, [])
  else
    let isSvcIPv4 := ipOptIsV4 svcInfo.feIP
    match areIPsConsistent (!cfg.ipv4Disabled) isSvcIPv4 se with
    | some e => (some e, svcInfo, [])
    | none =>
      let r := addLoop env svcInfo.feIP se [] svcInfo.ports
      (none, { svcInfo with ports := r.1 }, r.2)

/-! Kubernetes objects, parsing, and the service/endpoints tables. -/

/-- ASCII lowercase of one character, modelling `strings.ToLower` on the
ASCII strings the watcher compares (cluster IPs). -/
def lowerAsciiChar (c : Char) : Char :=
  if 'A' ≤ c ∧ c ≤ 'Z' then Char.ofNat (c.toNat + 32) else c

/-- ASCII lowercase of a string, modelling `strings.ToLower`. -/
def lowerAscii (s : String) : String :=
  String.mk (s.data.map lowerAsciiChar)

/-- The Kubernetes Service types distinguished by `parseSvcV1`. -/
inductive SvcType
  | clusterIPType
  | nodePort
  | loadBalancerType
  | externalName
  | otherType
deriving DecidableEq

/-- The ClusterIP string of a Service together with the result of
`net.ParseIP` on it.  `net.ParseIP` is Go standard-library code outside this
repository, so its outcome is carried as data. -/
structure ClusterIPField where
  raw : String
  parsed : Option IP
deriving DecidableEq

/-- A port of a Service spec (v1.ServicePort). -/
structure SvcPort where
  name : String
  protocol : L4Type
  port : Nat
deriving DecidableEq

/-- The fields of a v1.Service the watcher reads. -/
structure Service where
  name : String
  nspace : String
  labels : List (String × String)
  svcType : SvcType
  clusterIP : ClusterIPField
  selector : List (String × String)
  ports : List SvcPort
deriving DecidableEq

/-- One step of the port-parsing loop of `parseSvcV1`: the first Service port
with a given name wins. -/
def addPortIfAbsent (ports : List (String × FEPort)) (p : SvcPort) :
    List (String × FEPort) :=
  match alookup ports p.name with
  | some _ => ports
  | none => ports ++ [(p.name, ⟨p.protocol, p.port, 0⟩)]

/-- The port map built by `parseSvcV1` (`NewFEPort` starts with ID 0). -/
def parseSvcPorts (l : List SvcPort) : List (String × FEPort) :=
  l.foldl addPortIfAbsent []

/-- The Service types the switch of `parseSvcV1` lets through (ClusterIP,
NodePort, LoadBalancer); ExternalName and unknown types are ignored. -/
def svcTypeSupported : SvcType → Bool
  | .externalName => false
  | .otherType => false
  | _ => true

/-- Translation of `parseSvcV1`: ExternalName and unknown Service types and an
empty ClusterIP are ignored; a ClusterIP that lowercases to the string None
marks the service headless. -/
def parseSvcV1 (svc : Service) : Option K8sServiceInfo :=
  if svcTypeSupported svc.svcType then
    if svc.clusterIP.raw = "" then none
    else
      some
        { feIP := svc.clusterIP.parsed,
          isHeadless := decide (lowerAscii svc.clusterIP.raw = "none"),
          labels := svc.labels,
          selector := svc.selector,
          ports := parseSvcPorts svc.ports }
  else none

/-- A subset of a v1.Endpoints object. -/
structure EPSubset where
  addresses : List IP
  ports : List (String × L4Addr)
deriving DecidableEq

/-- The fields of a v1.Endpoints object the watcher reads. -/
structure EndpointsObj where
  name : String
  nspace : String
  subsets : List EPSubset
deriving DecidableEq

/-- Set insertion for backend IPs, modelling the key set of the Go map
`BEIPs map[string]bool`. -/
def insertIP (l : List IP) (ip : IP) : List IP :=
  if ip ∈ l then l else l ++ [ip]

/-- One subset step of `parseK8sEPv1`: addresses accumulate as a set, a later
port with the same name overwrites an earlier one. -/
def addSubset (acc : K8sServiceEndpoint) (sub : EPSubset) : K8sServiceEndpoint :=
  { beIPs := sub.addresses.foldl insertIP acc.beIPs,
    ports := sub.ports.foldl (fun ps p => aupsert ps p.1 p.2) acc.ports }

/-- Translation of `parseK8sEPv1`. -/
def parseK8sEPv1 (ep : EndpointsObj) : K8sServiceEndpoint :=
  ep.subsets.foldl addSubset ⟨[], []⟩

/-- Modelled from the spec: `K8sServiceInfo.IsExternal` lives in the external
loadbalancer package; per the spec an external service is one not backed by
local pods selected by the service, that is one without a selector. -/
def K8sServiceInfo.isExternal (si : K8sServiceInfo) : Bool :=
  si.selector.isEmpty

/-- Modelled from the spec: `K8sServiceInfo.Equals` lives in the external
loadbalancer package.  The spec demands that a duplicate add event be a
no-op even though the install pass persists allocated IDs into the stored
`ServiceInfo`, so the equality compares everything except the port IDs. -/
def portMatches (b : List (String × FEPort)) (kp : String × FEPort) : Bool :=
  match alookup b kp.1 with
  | some q => kp.2.protocol = q.protocol && kp.2.port = q.port
  | none => false

/-- Modelled from the spec: the two port maps agree on names, protocols and
port numbers, ignoring the allocated IDs. -/
def portsEqualIgnoreID (a b : List (String × FEPort)) : Bool :=
  a.length = b.length && a.all (fun kp => portMatches b kp)

/-- Modelled from the spec: equality of two `K8sServiceInfo` values up to the
allocated port IDs (see `portsEqualIgnoreID`). -/
def K8sServiceInfo.equalsInfo (s o : K8sServiceInfo) : Bool :=
  s.feIP = o.feIP && s.isHeadless = o.isHeadless && s.labels = o.labels
    && s.selector = o.selector && portsEqualIgnoreID s.ports o.ports

/-- The three keyed tables guarded by the load-balancer mutex. -/
structure LoadBalancerState where
  k8sServices : List (K8sServiceNamespace × K8sServiceInfo)
  k8sEndpoints : List (K8sServiceNamespace × K8sServiceEndpoint)
  k8sIngress : List (K8sServiceNamespace × K8sServiceInfo)
deriving DecidableEq

/-- The daemon state touched by the service/endpoints handlers: the LB tables
and the endpoint-import metadata cache keyed by namespace/name. -/
structure DaemonState where
  lb : LoadBalancerState
  epMetadata : List (String × Option Err)
deriving DecidableEq

/-- Models `k8sUtils.GetObjNamespaceName`. -/
def nsName (nspace name : String) : String :=
  nspace ++ "/" ++ name

/-- The delete branch of `syncLB`: with only one side present that table entry
is dropped silently; with both sides present the datapath uninstall runs and
only on its success are both table entries dropped. -/
def syncLBdel (cfg : Config) (sn : K8sServiceNamespace)
    (lb : LoadBalancerState) : Option Err × LoadBalancerState × List LBEvent :=
  match alookup lb.k8sServices sn with
  | none => (none, { lb with k8sEndpoints := aerase lb.k8sEndpoints sn }, [])
  | some svc =>
    match alookup lb.k8sEndpoints sn with
    | none => (none, { lb with k8sServices := aerase lb.k8sServices sn }, [])
    | some endpoint =>
      match delK8sSVCs cfg svc endpoint with
      | (some e, calls) => (some e, lb, calls)
      | (none, calls) =>
        (none,
          { lb with
            k8sServices := aerase lb.k8sServices sn,
            k8sEndpoints := aerase lb.k8sEndpoints sn },
          calls)

/-- The add branch of `syncLB`: waits until both sides are present, then runs
the datapath install and stores the service info whose port IDs the install
pass may have assigned (Go mutates them through the stored pointer). -/
def syncLBadd (cfg : Config) (env : LBEnv) (sn : K8sServiceNamespace)
    (lb : LoadBalancerState) : Option Err × LoadBalancerState × List LBEvent :=
  match alookup lb.k8sServices sn with
  | none => (none, lb, [])
  | some svcInfo =>
    match alookup lb.k8sEndpoints sn with
    | none => (none, lb, [])
    | some endpoint =>
      match addK8sSVCs cfg env svcInfo endpoint with
      | (err, svcInfo2, calls) =>
        (err, { lb with k8sServices := aupsert lb.k8sServices sn svcInfo2 },
          calls)

/-- Translation of `syncLB`: the delete key wins over the modify key, which
wins over the new key; new and modified services are treated identically. -/
def syncLB (cfg : Config) (env : LBEnv)
    (newSN modSN delSN : Option K8sServiceNamespace)
    (lb : LoadBalancerState) : Option Err × LoadBalancerState × List LBEvent :=
  match delSN with
  | some sn => syncLBdel cfg sn lb
  | none =>
    match modSN with
    | some sn => syncLBadd cfg env sn lb
    | none =>
      match newSN with
      | some sn => syncLBadd cfg env sn lb
      | none => (none, lb, [])

/-- The delete branch of `syncExternalLB` (both the ingress info and the
endpoints must be present; on successful uninstall the entry removed is,
as in the Go code, the one in the services table). -/
def syncExternalLBdel (cfg : Config) (sn : K8sServiceNamespace)
    (lb : LoadBalancerState) : Option Err × LoadBalancerState × List LBEvent :=
  match alookup lb.k8sIngress sn with
  | none => (none, lb, [])
  | some ingSvc =>
    match alookup lb.k8sEndpoints sn with
    | none => (none, lb, [])
    | some endpoint =>
      match delK8sSVCs cfg ingSvc endpoint with
      | (some e, calls) => (some e, lb, calls)
      | (none, calls) =>
        (none, { lb with k8sServices := aerase lb.k8sServices sn }, calls)

/-- The add branch of `syncExternalLB`. -/
def syncExternalLBadd (cfg : Config) (env : LBEnv) (sn : K8sServiceNamespace)
    (lb : LoadBalancerState) : Option Err × LoadBalancerState × List LBEvent :=
  match alookup lb.k8sIngress sn with
  | none => (none, lb, [])
  | some ingSvcInfo =>
    match alookup lb.k8sEndpoints sn with
    | none => (none, lb, [])
    | some k8sEP =>
      match addK8sSVCs cfg env ingSvcInfo k8sEP with
      | (err, ingSvcInfo2, calls) =>
        (err, { lb with k8sIngress := aupsert lb.k8sIngress sn ingSvcInfo2 },
          calls)

/-- Translation of `syncExternalLB`. -/
def syncExternalLB (cfg : Config) (env : LBEnv)
    (newSN modSN delSN : Option K8sServiceNamespace)
    (lb : LoadBalancerState) : Option Err × LoadBalancerState × List LBEvent :=
  match delSN with
  | some sn => syncExternalLBdel cfg sn lb
  | none =>
    match modSN with
    | some sn => syncExternalLBadd cfg env sn lb
    | none =>
      match newSN with
      | some sn => syncExternalLBadd cfg env sn lb
      | none => (none, lb, [])

/-- Translation of `addK8sServiceV1`: parse, dedup against the stored info,
store, and run the join with the endpoints side. -/
def addK8sServiceV1 (cfg : Config) (env : LBEnv) (svc : Service)
    (st : DaemonState) : Option Err × DaemonState × List LBEvent :=
  match parseSvcV1 svc with
  | none => (none, st, [])
  | some newSI =>
    let svcns : K8sServiceNamespace := ⟨svc.name, svc.nspace⟩
    let dedup :=
      match alookup st.lb.k8sServices svcns with
      | some oldSI => oldSI.equalsInfo newSI
      | none => false
    if dedup then (none, st, [])
    else
      let lb1 :=
        { st.lb with k8sServices := aupsert st.lb.k8sServices svcns newSI }
      match syncLB cfg env (some svcns) none none lb1 with
      | (err, lb2, calls) => (err, { st with lb := lb2 }, calls)

/-- Translation of `updateK8sServiceV1`, which forwards to the add handler. -/
def updateK8sServiceV1 (cfg : Config) (env : LBEnv) (_oldSvc newSvc : Service)
    (st : DaemonState) : Option Err × DaemonState × List LBEvent :=
  addK8sServiceV1 cfg env newSvc st

/-- Translation of `addK8sEndpointV1`: store the parsed endpoints, join with
the service side, join with the ingress side when LB mode is on, then run the
toServices translation for external services guarded by the endpoint-import
metadata cache. -/
def addK8sEndpointV1 (cfg : Config) (env : LBEnv) (ep : EndpointsObj)
    (st : DaemonState) : Option Err × DaemonState × List LBEvent :=
  let svcns : K8sServiceNamespace := ⟨ep.name, ep.nspace⟩
  let newSvcEP := parseK8sEPv1 ep
  let stored := alookup st.lb.k8sEndpoints svcns
  let endpointsEqual := stored = some newSvcEP
  let lb1 :=
    { st.lb with k8sEndpoints := aupsert st.lb.k8sEndpoints svcns newSvcEP }
  match syncLB cfg env (some svcns) none none lb1 with
  | (_, lb2, calls1) =>
    let afterSync :=
      if cfg.isLBEnabled then
        match syncExternalLB cfg env (some svcns) none none lb2 with
        | (some e, lb3, calls2) => (some (some e), lb3, calls1 ++ calls2)
        | (none, lb3, calls2) => (none, lb3, calls1 ++ calls2)
      else (none, lb2, calls1)
    match afterSync with
    | (some e, lb3, calls) => (e, { st with lb := lb3 }, calls)
    | (none, lb3, calls) =>
      let st1 := { st with lb := lb3 }
      match alookup lb3.k8sServices svcns with
      | some svc =>
        if svc.isExternal then
          let cached := alookup st1.epMetadata (nsName ep.nspace ep.name)
          match cached with
          | none =>
            runTranslation st1 svcns ep false calls
          | some (some _) =>
            runTranslation st1 svcns ep false calls
          | some none =>
            if endpointsEqual then (none, st1, calls)
            else (none, st1, calls ++ [LBEvent.triggerPolicyUpdates])
        else (none, st1, calls)
      | none => (none, st1, calls)
where
  /-- The translate-and-record step shared by the first-time and the
  failed-last-time branches. -/
  runTranslation (st1 : DaemonState) (svcns : K8sServiceNamespace)
      (ep : EndpointsObj) (revert : Bool) (calls : List LBEvent) :
      Option Err × DaemonState × List LBEvent :=
    let terr := env.translateRules svcns revert
    let st2 :=
      { st1 with
        epMetadata := aupsert st1.epMetadata (nsName ep.nspace ep.name) terr }
    match terr with
    | some e => (some e, st2, calls ++ [LBEvent.translateRules revert])
    | none =>
      (none, st2,
        calls ++ [LBEvent.translateRules revert, LBEvent.triggerPolicyUpdates])

/-- Translation of `deleteK8sEndpointV1`: revert the toServices translation
for external services, run the delete join on both tables, and drop the
endpoint metadata entry. -/
def deleteK8sEndpointV1 (cfg : Config) (env : LBEnv) (ep : EndpointsObj)
    (st : DaemonState) : Option Err × DaemonState × List LBEvent :=
  let svcns : K8sServiceNamespace := ⟨ep.name, ep.nspace⟩
  let translated :=
    match alookup st.lb.k8sEndpoints svcns with
    | none => ([] : List LBEvent)
    | some _ =>
      match alookup st.lb.k8sServices svcns with
      | none => []
      | some svc =>
        if svc.isExternal then
          match env.translateRules svcns true with
          | some _ => [LBEvent.translateRules true]
          | none => [LBEvent.translateRules true, LBEvent.triggerPolicyUpdates]
        else []
  match syncLB cfg env none none (some svcns) st.lb with
  | (syncErr, lb2, calls1) =>
    let afterExt :=
      if cfg.isLBEnabled then
        match syncExternalLB cfg env none none (some svcns) lb2 with
        | (some e, lb3, calls2) => (some (some e), lb3, calls1 ++ calls2)
        | (none, lb3, calls2) => (none, lb3, calls1 ++ calls2)
      else (none, lb2, calls1)
    match afterExt with
    | (some e, lb3, calls) => (e, { st with lb := lb3 }, translated ++ calls)
    | (none, lb3, calls) =>
      (syncErr,
        { lb := lb3,
          epMetadata := aerase st.epMetadata (nsName ep.nspace ep.name) },
        translated ++ calls)

/-! Cilium Network Policy lifecycle: import, metadata cache, status task. -/

/-- Decidable equality for `Except` results (not derived automatically). -/
instance exceptDecEq {ε α : Type} [DecidableEq ε] [DecidableEq α] :
    DecidableEq (Except ε α) := fun a b =>
  match a, b with
  | .error e, .error f =>
    if h : e = f then .isTrue (by rw [h])
    else .isFalse (by intro hh; cases hh; exact h rfl)
  | .ok x, .ok y =>
    if h : x = y then .isTrue (by rw [h])
    else .isFalse (by intro hh; cases hh; exact h rfl)
  | .error _, .ok _ => .isFalse (by intro h; cases h)
  | .ok _, .error _ => .isFalse (by intro h; cases h)

/-- The spec of a CNP, identified by the outcome of `Parse` on it
(`Parse` lives in the external cilium.io/v2 API package): either a parse
error or the number of parsed rules. -/
structure CNPSpecModel where
  parseResult : Except Err Nat
deriving DecidableEq

/-- The fields of a CiliumNetworkPolicy object the watcher reads. -/
structure CNP where
  name : String
  nspace : String
  uid : String
  annotations : List (String × String)
  specModel : CNPSpecModel
deriving DecidableEq

/-- Modelled from the spec: `GetControllerName` lives in the external
cilium.io/v2 package; the status write-back task has a per-policy name
derived from the object name and UID. -/
def cnpControllerName (cnp : CNP) : String :=
  cnp.name ++ " (v2 " ++ cnp.uid ++ ")"

/-- The namespace/name key of a CNP in the metadata cache
(`k8sUtils.GetObjNamespaceName`). -/
def cnpKey (cnp : CNP) : String :=
  nsName cnp.nspace cnp.name

/-- Models `SpecEquals` (deep equality of Spec and Specs). -/
def CNP.specEquals (a b : CNP) : Bool :=
  a.specModel = b.specModel

/-- Models `AnnotationsEquals` (map equality of the annotations). -/
def CNP.annotationsEquals (a b : CNP) : Bool :=
  a.annotations = b.annotations

/-- policyImportMetadata: the revision and error recorded at import time. -/
structure PolicyImportMetadata where
  revision : Nat
  policyImportError : Option Err
deriving DecidableEq

/-- The parameters the status controller closure captures: the CNP object
and the revision and import error at the time the task was (re)scheduled. -/
structure CtrlParams where
  cnp : CNP
  rev : Nat
  importErr : Option Err
deriving DecidableEq

/-- The daemon state touched by the CNP handlers: the rule-import metadata
cache and the controller-manager registry of named status tasks. -/
structure CNPState where
  importMeta : List (String × PolicyImportMetadata)
  controllers : List (String × CtrlParams)
deriving DecidableEq

/-- The trace of externally visible steps a CNP handler takes, in order. -/
inductive CNPEvent
  | policyAdd
  | policyDelete
  | metaUpsert (key : String) (rev : Nat) (importErr : Option Err)
  | metaDelete (key : String)
  | updateController (name : String)
  | removeController (name : String)
deriving DecidableEq

/-- Results supplied by the external collaborators of the CNP import path:
`k8s.PreprocessRules` and `Daemon.PolicyAdd` (the latter returns the policy
repository revision on success). -/
structure CNPEnv where
  preprocessErr : CNP → Option Err
  policyAdd : CNP → Except Err Nat

/-- Translation of `addCiliumNetworkPolicyV2`: parse, preprocess the
toServices selectors, import into the policy repository, record the
`{revision, importError}` pair in the metadata cache synchronously, and only
then (re)schedule the per-policy status write-back controller. -/
def addCiliumNetworkPolicyV2 (env : CNPEnv) (cnp : CNP) (st : CNPState) :
    Option Err × CNPState × List CNPEvent :=
  let imported : Nat × Option Err × List CNPEvent :=
    match cnp.specModel.parseResult with
    | .error e => (0, some e, [])
    | .ok nRules =>
      if 0 < nRules then
        match env.preprocessErr cnp with
        | some e => (0, some e, [])
        | none =>
          match env.policyAdd cnp with
          | .error e => (0, some e, [CNPEvent.policyAdd])
          | .ok r => (r, none, [CNPEvent.policyAdd])
      else (0, none, [])
  match imported with
  | (rev, policyImportErr, evs) =>
    let st1 :=
      { st with
        importMeta := aupsert st.importMeta (cnpKey cnp) ⟨rev, policyImportErr⟩ }
    let ctrlName := cnpControllerName cnp
    let st2 :=
      { st1 with
        controllers := aupsert st1.controllers ctrlName ⟨cnp, rev, policyImportErr⟩ }
    (policyImportErr, st2,
      evs ++ [CNPEvent.metaUpsert (cnpKey cnp) rev policyImportErr,
              CNPEvent.updateController ctrlName])

/-- Translation of `updateCiliumNetworkPolicyV2AnnotationsOnly`: read the
metadata recorded by the add handler (the zero value when absent) and
reschedule the status write-back controller with it. -/
def updateCiliumNetworkPolicyV2AnnotationsOnly (cnp : CNP) (st : CNPState) :
    CNPState × List CNPEvent :=
  let meta := (alookup st.importMeta (cnpKey cnp)).getD ⟨0, none⟩
  let ctrlName := cnpControllerName cnp
  ({ st with
      controllers :=
        aupsert st.controllers ctrlName ⟨cnp, meta.revision, meta.policyImportError⟩ },
   [CNPEvent.updateController ctrlName])

/-- Translation of `updateCiliumNetworkPolicyV2`: parse both copies (errors
return early), treat an unchanged spec with changed annotations as a pure
status-task reschedule (dropping the old controller first when its name
changed), and fall back to the add handler when the spec changed. -/
def updateCiliumNetworkPolicyV2 (env : CNPEnv) (oldRuleCpy newRuleCpy : CNP)
    (st : CNPState) : Option Err × CNPState × List CNPEvent :=
  match oldRuleCpy.specModel.parseResult with
  | .error e => (some e, st, [])
  | .ok _ =>
    match newRuleCpy.specModel.parseResult with
    | .error e => (some e, st, [])
    | .ok _ =>
      if oldRuleCpy.specEquals newRuleCpy then
        if !oldRuleCpy.annotationsEquals newRuleCpy then
          let oldCtrlName := cnpControllerName oldRuleCpy
          let newCtrlName := cnpControllerName newRuleCpy
          let removed : CNPState × List CNPEvent :=
            if oldCtrlName ≠ newCtrlName then
              ({ st with controllers := aerase st.controllers oldCtrlName },
                [CNPEvent.removeController oldCtrlName])
            else (st, [])
          match updateCiliumNetworkPolicyV2AnnotationsOnly newRuleCpy removed.1 with
          | (st2, evs2) => (none, st2, removed.2 ++ evs2)
        else (none, st, [])
      else addCiliumNetworkPolicyV2 env newRuleCpy st

/-- Translation of `deleteCiliumNetworkPolicyV2`: drop the metadata entry,
cancel the status controller, and delete the rules from the repository. -/
def deleteCiliumNetworkPolicyV2 (policyDeleteErr : Option Err) (cnp : CNP)
    (st : CNPState) : Option Err × CNPState × List CNPEvent :=
  let st1 := { st with importMeta := aerase st.importMeta (cnpKey cnp) }
  let ctrlName := cnpControllerName cnp
  let st2 := { st1 with controllers := aerase st1.controllers ctrlName }
  (policyDeleteErr, st2,
    [CNPEvent.metaDelete (cnpKey cnp), CNPEvent.removeController ctrlName,
     CNPEvent.policyDelete])

/-! The CNP per-node status write-back controller. -/

/-- The per-node status payload built by `updateCNPNodeStatus`
(CiliumNetworkPolicyNodeStatus).  The `error` and `revision` fields keep the
Go zero-value convention: an empty string and 0 are the omitted values.  The
LastUpdated wall-clock timestamp is not modelled. -/
structure CNPNodeStatus where
  enforcing : Bool
  error : String
  revision : Nat
  ok : Bool
  annotations : List (String × String)
deriving DecidableEq

/-- The status struct literal of `updateCNPNodeStatus`: the error branch
leaves `Revision` at its zero value, the success branch leaves `Error` at its
zero value. -/
def mkCNPNodeStatus (enforcing okFlag : Bool) (err : Option Err) (rev : Nat)
    (annotations : List (String × String)) : CNPNodeStatus :=
  match err with
  | some e =>
    { enforcing := enforcing, error := e, revision := 0, ok := okFlag,
      annotations := annotations }
  | none =>
    { enforcing := enforcing, error := "", revision := rev, ok := okFlag,
      annotations := annotations }

/-- Translation of `updateCNPNodeStatus`: build the per-node status and send
it through the status (or whole-object) update API, whose outcome is supplied
by `writeRes`.  Returns the payload written and the write result. -/
def updateCNPNodeStatus (writeRes : CNPNodeStatus → Option Err)
    (enforcing okFlag : Bool) (err : Option Err) (rev : Nat)
    (annotations : List (String × String)) : CNPNodeStatus × Option Err :=
  let cnpns := mkCNPNodeStatus enforcing okFlag err rev annotations
  (cnpns, writeRes cnpns)

/-- The externally supplied outcomes of one run of the status controller:
the wait-for-endpoints result, the per-attempt local-store fetch, and the
per-attempt status-write result. -/
structure StatusEnv where
  waitForEPsErr : Option Err
  fetch : Nat → Except Err CNP
  write : Nat → CNPNodeStatus → Option Err

/-- Trace entries of one run of the status controller. -/
inductive StatusEvent
  | write (attempt : Nat) (s : CNPNodeStatus)
  | sleep (ms : Nat)
deriving DecidableEq

/-- How the retry loop of `cnpNodeStatusController` ended: an early return
with a store-fetch error, or normally with the last write result. -/
inductive LoopExit
  | storeErr (e : Err)
  | done (lastWriteErr : Option Err)
deriving DecidableEq

/-- The status payload one attempt of `cnpNodeStatusController` writes, given
the rule fetched from the store: import errors dominate, then parse errors of
the fetched copy, otherwise the wait-for-endpoints outcome (with `ok` true). -/
def statusAttemptPayload (serverRule : CNP) (rev : Nat)
    (importErr waitErr : Option Err) : CNPNodeStatus :=
  match importErr with
  | some e => mkCNPNodeStatus false false (some e) rev serverRule.annotations
  | none =>
    match serverRule.specModel.parseResult with
    | .error pe => mkCNPNodeStatus false false (some pe) rev serverRule.annotations
    | .ok _ =>
      mkCNPNodeStatus (waitErr = none) true waitErr rev serverRule.annotations

/-- The retry loop of `cnpNodeStatusController`: at most `fuel` attempts
(`maxAttempts = 5` at the call site), each failed write followed by a 200 ms
sleep, a successful write breaking out of the loop, and a store-fetch error
returning immediately. -/
def statusLoop (env : StatusEnv) (rev : Nat) (importErr waitErr : Option Err) :
    Nat → Nat → Option Err → LoopExit × List StatusEvent
  | 0, _, lastErr => (.done lastErr, [])
  | fuel + 1, n, _ =>
    match env.fetch n with
    | .error e => (.storeErr e, [])
    | .ok serverRule =>
      let cnpns := statusAttemptPayload serverRule rev importErr waitErr
      match env.write n cnpns with
      | none => (.done none, [StatusEvent.write n cnpns])
      | some we =>
        match statusLoop env rev importErr waitErr fuel (n + 1) (some we) with
        | (exit, evs) =>
          (exit, StatusEvent.write n cnpns :: StatusEvent.sleep 200 :: evs)

/-- Translation of `cnpNodeStatusController`: wait for the endpoints to reach
the import revision (outcome supplied by the environment), run the bounded
write-retry loop, and return the store or write error when one is left,
otherwise the wait-for-endpoints error. -/
def cnpNodeStatusController (env : StatusEnv) (rev : Nat)
    (importErr : Option Err) : Option Err × List StatusEvent :=
  let waitErr := env.waitForEPsErr
  let r := statusLoop env rev importErr waitErr 5 0 none
  (match r.1 with
   | .storeErr e => some e
   | .done (some e) => some e
   | .done none => waitErr,
   r.2)

/-! Ingress equality and update delivery. -/

/-- The fields of a v1beta1.Ingress object; the equality predicate below
ignores all of them. -/
structure Ingress where
  name : String
  nspace : String
  backendServiceName : Option String
deriving DecidableEq

/-- Translation of `equalV1beta1Ingress`: no dedicated deep-equal function is
written yet, so any two ingresses are judged unequal. -/
def equalV1beta1Ingress (_o1 _o2 : Ingress) : Bool :=
  false

/-- Modelled from the spec: the resource-controller factory (outside this
file) delivers deduplicated events, passing an update to the handlers exactly
when the registered equality predicate judges the old and new objects
unequal. -/
def updateDelivered {α : Type} (equalPred : α → α → Bool) (oldObj newObj : α) :
    Bool :=
  !(equalPred oldObj newObj)

/-! Auxiliary definitions used by the theorems below. -/

/-- The rejection condition claimed by the spec for the datapath
install/uninstall consistency check, written from the claim text: the
frontend family differs from the family of some backend IP, or from the
enabled IP family (IPv4 can be disabled by configuration; IPv6 cannot). -/
def familyMismatch (cfg : Config) (fe : IP) (se : K8sServiceEndpoint) : Bool :=
  (fe.isV4 && cfg.ipv4Disabled) || se.beIPs.any (fun b => b.isV4 != fe.isV4)

/-- Whether a status event is a write attempt. -/
def isWriteEvent : StatusEvent → Bool
  | .write _ _ => true
  | .sleep _ => false

/-- Whether a status event is a back-off sleep. -/
def isSleepEvent : StatusEvent → Bool
  | .write _ _ => false
  | .sleep _ => true

/-- Number of status-write attempts in a trace. -/
def writeCount (evs : List StatusEvent) : Nat :=
  evs.countP (fun e => isWriteEvent e)

/-- Number of back-off sleeps in a trace. -/
def sleepCount (evs : List StatusEvent) : Nat :=
  evs.countP (fun e => isSleepEvent e)

/-- The ID-insensitive part of a named frontend port. -/
def portSig (kp : String × FEPort) : String × L4Type × Nat :=
  (kp.1, kp.2.protocol, kp.2.port)

/-- The key list of an association list. -/
def akeys {α β : Type} (l : List (α × β)) : List α :=
  l.map (fun p => p.1)

/-- Whether a store fetch succeeded. -/
def fetchOk : Except Err CNP → Bool
  | .ok _ => true
  | .error _ => false

/-- The Service of end-to-end scenario S2: ClusterIP 10.0.0.5, one TCP port
named http on 80, a pod selector. -/
def webSvc : Service :=
  { name := "web", nspace := "default", labels := [("app", "web")],
    svcType := .clusterIPType,
    clusterIP := ⟨"10.0.0.5", some (.v4 10 0 0 5)⟩,
    selector := [("app", "web")],
    ports := [⟨"http", .tcp, 80⟩] }

/-- The Endpoints of end-to-end scenario S2: backends 192.168.1.2 and
192.168.1.3, TCP port named http on 8080. -/
def webEP : EndpointsObj :=
  { name := "web", nspace := "default",
    subsets := [⟨[.v4 192 168 1 2, .v4 192 168 1 3],
                 [("http", ⟨.tcp, 8080⟩)]⟩] }

/-- Scenario configuration: east-west LB on, IPv4 on, ingress LB off. -/
def cfgS2 : Config := ⟨false, false, false⟩

/-- Scenario environment: the allocator hands out service ID 7. -/
def envS2 : LBEnv := ⟨fun _ _ _ => .ok 7, fun _ _ => none⟩

/-- Scenario S2 state after the Service add. -/
def stS2a : DaemonState :=
  (addK8sServiceV1 cfgS2 envS2 webSvc ⟨⟨[], [], []⟩, []⟩).2.1

/-- Scenario S2 state after the Endpoints add. -/
def stS2b : DaemonState :=
  (addK8sEndpointV1 cfgS2 envS2 webEP stS2a).2.1

/-- Scenario S2 outcome of the Endpoints delete. -/
def delS2 : Option Err × DaemonState × List LBEvent :=
  deleteK8sEndpointV1 cfgS2 envS2 webEP stS2b

/-! Helper lemmas. -/

/-- Looking up the key just upserted yields the new value. -/
theorem alookup_aupsert {α β : Type} [DecidableEq α] (l : List (α × β))
    (k : α) (v : β) : alookup (aupsert l k v) k = some v := by
  induction l with
  | nil => simp [aupsert, alookup]
  | cons p rest ih =>
    by_cases h : p.1 = k
    · simp [aupsert, alookup, h]
    · simp [aupsert, alookup, h, ih]

/-! Claim theorems. -/

/-- C10: the registered Ingress equality predicate judges every pair of
Ingress objects unequal, so every ingress update event is delivered to the
handlers instead of being deduplicated as unchanged. -/
theorem equalV1beta1Ingress_never_equal (i1 i2 : Ingress) :
    equalV1beta1Ingress i1 i2 = false ∧
    updateDelivered equalV1beta1Ingress i1 i2 = true :=
  ⟨rfl, rfl⟩

/-- C9: the per-node status entry built by `updateCNPNodeStatus` carries the
error message and a zero (omitted) revision exactly on a non-nil error, and
the import revision with an empty (omitted) error field exactly on a nil
error; it never carries both a nonzero revision and a nonempty error. -/
theorem updateCNPNodeStatus_error_xor_revision
    (writeRes : CNPNodeStatus → Option Err) (enforcing okFlag : Bool)
    (err : Option Err) (rev : Nat) (annotations : List (String × String)) :
    ((updateCNPNodeStatus writeRes enforcing okFlag err rev annotations).1.error
        = err.getD "") ∧
    ((updateCNPNodeStatus writeRes enforcing okFlag err rev annotations).1.revision
        = if err.isSome then 0 else rev) ∧
    ((updateCNPNodeStatus writeRes enforcing okFlag err rev annotations).1.revision = 0 ∨
      (updateCNPNodeStatus writeRes enforcing okFlag err rev annotations).1.error = "") := by
  cases err <;> simp [updateCNPNodeStatus, mkCNPNodeStatus]

/-- C6 counterexample: in scenario S2 (Service 10.0.0.5 port http 80/TCP plus
Endpoints 192.168.1.2/3 port http 8080/TCP added, then the Endpoints object
deleted) the datapath teardown calls do happen, but the service table entry
for (default, web) is dropped rather than retained. -/
theorem deleteK8sEndpointV1_S2_drops_service_entry :
    LBEvent.svcDeleteByFrontend .tcp (some (.v4 10 0 0 5)) 80 ∈ delS2.2.2 ∧
    LBEvent.revNATDelete 7 ∈ delS2.2.2 ∧
    alookup delS2.2.1.lb.k8sServices ⟨"web", "default"⟩ = none := by
  refine ⟨?_, ?_, ?_⟩ <;> decide

/-- C6 amended: in scenario S2 the Endpoints delete issues exactly the ID
release, the frontend delete and the reverse-NAT delete for 10.0.0.5:80/TCP,
returns nil, and removes both the service and the endpoints table entries. -/
theorem deleteK8sEndpointV1_S2_spec :
    delS2 = (none, ⟨⟨[], [], []⟩, []⟩,
      [LBEvent.deleteID 7,
       LBEvent.svcDeleteByFrontend .tcp (some (.v4 10 0 0 5)) 80,
       LBEvent.revNATDelete 7]) := by
  decide

/-- C7: with the disable-k8s-services flag set or for a headless service
info, the install and uninstall paths return nil without issuing any
datapath, ID-allocator or RevNAT call and without touching the service info;
and a parsed service is headless exactly when its ClusterIP lowercases to
the string None. -/
theorem addDelK8sSVCs_noop_when_disabled_or_headless
    (cfg : Config) (env : LBEnv) (svcInfo : K8sServiceInfo)
    (se : K8sServiceEndpoint) (svc : Service)
    (h : cfg.disableK8sServices = true ∨ svcInfo.isHeadless = true) :
    addK8sSVCs cfg env svcInfo se = (none, svcInfo, []) ∧
    delK8sSVCs cfg svcInfo se = (none, []) ∧
    (parseSvcV1 svc).map K8sServiceInfo.isHeadless =
      (parseSvcV1 svc).map
        (fun _ => decide (lowerAscii svc.clusterIP.raw = "none")) := by
  refine ⟨?_, ?_, ?_⟩
  · rcases h with h | h <;> simp [addK8sSVCs, h]
  · rcases h with h | h <;> simp [delK8sSVCs, h]
  · rcases svc with ⟨nm, ns, lbl, ty, cip, sel, ps⟩
    by_cases hty : svcTypeSupported ty <;> by_cases hr : cip.raw = "" <;>
      simp [parseSvcV1, hty, hr]

/-- Witness for C7 at a concrete headless service info and service. -/
theorem addDelK8sSVCs_noop_witness :
    addK8sSVCs ⟨false, false, false⟩ ⟨fun _ _ _ => .ok 1, fun _ _ => none⟩
        ⟨none, true, [], [], [("p", ⟨.tcp, 80, 0⟩)]⟩ ⟨[], []⟩ =
      (none, ⟨none, true, [], [], [("p", ⟨.tcp, 80, 0⟩)]⟩, []) ∧
    delK8sSVCs ⟨false, false, false⟩ ⟨none, true, [], [], [("p", ⟨.tcp, 80, 0⟩)]⟩
        ⟨[], []⟩ = (none, []) ∧
    (parseSvcV1 ⟨"web", "default", [], .clusterIPType, ⟨"NONE", none⟩, [], []⟩).map
        K8sServiceInfo.isHeadless =
      (parseSvcV1 ⟨"web", "default", [], .clusterIPType, ⟨"NONE", none⟩, [], []⟩).map
        (fun _ => decide (lowerAscii "NONE" = "none")) :=
  addDelK8sSVCs_noop_when_disabled_or_headless
    ⟨false, false, false⟩ ⟨fun _ _ _ => .ok 1, fun _ _ => none⟩
    ⟨none, true, [], [], [("p", ⟨.tcp, 80, 0⟩)]⟩ ⟨[], []⟩
    ⟨"web", "default", [], .clusterIPType, ⟨"NONE", none⟩, [], []⟩
    (Or.inr rfl)

/-- C1: a successful CNP add (parse, preprocess and PolicyAdd all succeed)
synchronously upserts the metadata cache with the revision returned by
PolicyAdd and a nil import error before the per-policy status controller is
scheduled (the metaUpsert event precedes the updateController event in the
handler trace), so a later update event observes a cached revision at least
as large as the one PolicyAdd returned. -/
theorem addCiliumNetworkPolicyV2_records_revision_synchronously
    (env : CNPEnv) (cnp : CNP) (st : CNPState) (n r : Nat)
    (hparse : cnp.specModel.parseResult = .ok n) (hn : 0 < n)
    (hpre : env.preprocessErr cnp = none)
    (hadd : env.policyAdd cnp = .ok r) :
    addCiliumNetworkPolicyV2 env cnp st =
      (none,
        ⟨aupsert st.importMeta (cnpKey cnp) ⟨r, none⟩,
         aupsert st.controllers (cnpControllerName cnp) ⟨cnp, r, none⟩⟩,
        [CNPEvent.policyAdd, CNPEvent.metaUpsert (cnpKey cnp) r none,
         CNPEvent.updateController (cnpControllerName cnp)]) ∧
    alookup (addCiliumNetworkPolicyV2 env cnp st).2.1.importMeta (cnpKey cnp)
      = some ⟨r, none⟩ ∧
    r ≤ ((alookup (addCiliumNetworkPolicyV2 env cnp st).2.1.importMeta
          (cnpKey cnp)).getD ⟨0, none⟩).revision := by
  have hmain : addCiliumNetworkPolicyV2 env cnp st =
      (none,
        ⟨aupsert st.importMeta (cnpKey cnp) ⟨r, none⟩,
         aupsert st.controllers (cnpControllerName cnp) ⟨cnp, r, none⟩⟩,
        [CNPEvent.policyAdd, CNPEvent.metaUpsert (cnpKey cnp) r none,
         CNPEvent.updateController (cnpControllerName cnp)]) := by
    simp [addCiliumNetworkPolicyV2, hparse, hn, hpre, hadd]
  refine ⟨hmain, ?_, ?_⟩
  · rw [hmain]
    exact alookup_aupsert st.importMeta (cnpKey cnp) ⟨r, none⟩
  · rw [hmain]
    rw [alookup_aupsert st.importMeta (cnpKey cnp) ⟨r, none⟩]
    exact le_refl r

/-- Witness for C1 at a concrete one-rule CNP whose import succeeds with
revision 42. -/
theorem addCiliumNetworkPolicyV2_records_revision_witness :
    addCiliumNetworkPolicyV2 ⟨fun _ => none, fun _ => .ok 42⟩
        ⟨"p1", "app", "u1", [], ⟨.ok 1⟩⟩ ⟨[], []⟩ =
      (none,
        ⟨aupsert [] (cnpKey ⟨"p1", "app", "u1", [], ⟨.ok 1⟩⟩) ⟨42, none⟩,
         aupsert [] (cnpControllerName ⟨"p1", "app", "u1", [], ⟨.ok 1⟩⟩)
           ⟨⟨"p1", "app", "u1", [], ⟨.ok 1⟩⟩, 42, none⟩⟩,
        [CNPEvent.policyAdd,
         CNPEvent.metaUpsert (cnpKey ⟨"p1", "app", "u1", [], ⟨.ok 1⟩⟩) 42 none,
         CNPEvent.updateController
           (cnpControllerName ⟨"p1", "app", "u1", [], ⟨.ok 1⟩⟩)]) ∧
    alookup (addCiliumNetworkPolicyV2 ⟨fun _ => none, fun _ => .ok 42⟩
        ⟨"p1", "app", "u1", [], ⟨.ok 1⟩⟩ ⟨[], []⟩).2.1.importMeta
      (cnpKey ⟨"p1", "app", "u1", [], ⟨.ok 1⟩⟩) = some ⟨42, none⟩ ∧
    42 ≤ ((alookup (addCiliumNetworkPolicyV2 ⟨fun _ => none, fun _ => .ok 42⟩
          ⟨"p1", "app", "u1", [], ⟨.ok 1⟩⟩ ⟨[], []⟩).2.1.importMeta
        (cnpKey ⟨"p1", "app", "u1", [], ⟨.ok 1⟩⟩)).getD ⟨0, none⟩).revision :=
  addCiliumNetworkPolicyV2_records_revision_synchronously
    ⟨fun _ => none, fun _ => .ok 42⟩ ⟨"p1", "app", "u1", [], ⟨.ok 1⟩⟩ ⟨[], []⟩
    1 42 rfl (by decide) rfl rfl

/-- C2 counterexample: an update whose old and new copies have equal but
unparseable specs and differing annotations makes the handler return the
parse error with an empty trace: no status write-back task is (re)scheduled,
contradicting the claim that such updates always reschedule it. -/
theorem updateCiliumNetworkPolicyV2_annotations_only_cex :
    CNP.specEquals ⟨"p", "ns", "u", [("k", "1")], ⟨.error "invalid spec"⟩⟩
        ⟨"p", "ns", "u", [("k", "2")], ⟨.error "invalid spec"⟩⟩ = true ∧
    CNP.annotationsEquals ⟨"p", "ns", "u", [("k", "1")], ⟨.error "invalid spec"⟩⟩
        ⟨"p", "ns", "u", [("k", "2")], ⟨.error "invalid spec"⟩⟩ = false ∧
    updateCiliumNetworkPolicyV2 ⟨fun _ => none, fun _ => .ok 1⟩
        ⟨"p", "ns", "u", [("k", "1")], ⟨.error "invalid spec"⟩⟩
        ⟨"p", "ns", "u", [("k", "2")], ⟨.error "invalid spec"⟩⟩ ⟨[], []⟩ =
      (some "invalid spec", ⟨[], []⟩, []) := by
  refine ⟨by decide, by decide, rfl⟩

/-- C2 amended: on an update whose specs are equal and parse successfully
while only the annotations differ, the handler touches neither PolicyAdd nor
PolicyDelete, leaves the import-metadata cache unchanged, and only
(re)schedules the per-policy status write-back controller, first removing
the old controller when its name changed. -/
theorem updateCiliumNetworkPolicyV2_annotations_only_spec
    (env : CNPEnv) (oldCNP newCNP : CNP) (st : CNPState) (n : Nat)
    (hspec : oldCNP.specEquals newCNP = true)
    (hparse : newCNP.specModel.parseResult = .ok n)
    (hann : oldCNP.annotationsEquals newCNP = false) :
    (updateCiliumNetworkPolicyV2 env oldCNP newCNP st).1 = none ∧
    (updateCiliumNetworkPolicyV2 env oldCNP newCNP st).2.1.importMeta
      = st.importMeta ∧
    CNPEvent.policyAdd ∉ (updateCiliumNetworkPolicyV2 env oldCNP newCNP st).2.2 ∧
    CNPEvent.policyDelete ∉ (updateCiliumNetworkPolicyV2 env oldCNP newCNP st).2.2 ∧
    (updateCiliumNetworkPolicyV2 env oldCNP newCNP st).2.2 =
      (if cnpControllerName oldCNP = cnpControllerName newCNP then
        [CNPEvent.updateController (cnpControllerName newCNP)]
      else
        [CNPEvent.removeController (cnpControllerName oldCNP),
         CNPEvent.updateController (cnpControllerName newCNP)]) ∧
    alookup (updateCiliumNetworkPolicyV2 env oldCNP newCNP st).2.1.controllers
        (cnpControllerName newCNP) =
      some ⟨newCNP,
        ((alookup st.importMeta (cnpKey newCNP)).getD ⟨0, none⟩).revision,
        ((alookup st.importMeta (cnpKey newCNP)).getD ⟨0, none⟩).policyImportError⟩ := by
  have hsm : oldCNP.specModel = newCNP.specModel := of_decide_eq_true hspec
  have hop : oldCNP.specModel.parseResult = Except.ok n := by
    rw [hsm]; exact hparse
  refine ⟨?_, ?_, ?_, ?_, ?_, ?_⟩ <;>
    by_cases hnm : cnpControllerName oldCNP = cnpControllerName newCNP <;>
      simp [updateCiliumNetworkPolicyV2, hop, hparse, hspec, hann, hnm,
        updateCiliumNetworkPolicyV2AnnotationsOnly, alookup_aupsert]

/-- Witness for C2 (amended) at a concrete annotation-only update of a CNP
with one parsed rule. -/
theorem updateCiliumNetworkPolicyV2_annotations_only_witness :
    (updateCiliumNetworkPolicyV2 ⟨fun _ => none, fun _ => .ok 9⟩
        ⟨"p", "ns", "u", [("k", "1")], ⟨.ok 1⟩⟩
        ⟨"p", "ns", "u", [("k", "2")], ⟨.ok 1⟩⟩ ⟨[], []⟩).1 = none ∧
    (updateCiliumNetworkPolicyV2 ⟨fun _ => none, fun _ => .ok 9⟩
        ⟨"p", "ns", "u", [("k", "1")], ⟨.ok 1⟩⟩
        ⟨"p", "ns", "u", [("k", "2")], ⟨.ok 1⟩⟩ ⟨[], []⟩).2.1.importMeta = [] ∧
    CNPEvent.policyAdd ∉ (updateCiliumNetworkPolicyV2 ⟨fun _ => none, fun _ => .ok 9⟩
        ⟨"p", "ns", "u", [("k", "1")], ⟨.ok 1⟩⟩
        ⟨"p", "ns", "u", [("k", "2")], ⟨.ok 1⟩⟩ ⟨[], []⟩).2.2 ∧
    CNPEvent.policyDelete ∉ (updateCiliumNetworkPolicyV2 ⟨fun _ => none, fun _ => .ok 9⟩
        ⟨"p", "ns", "u", [("k", "1")], ⟨.ok 1⟩⟩
        ⟨"p", "ns", "u", [("k", "2")], ⟨.ok 1⟩⟩ ⟨[], []⟩).2.2 ∧
    (updateCiliumNetworkPolicyV2 ⟨fun _ => none, fun _ => .ok 9⟩
        ⟨"p", "ns", "u", [("k", "1")], ⟨.ok 1⟩⟩
        ⟨"p", "ns", "u", [("k", "2")], ⟨.ok 1⟩⟩ ⟨[], []⟩).2.2 =
      (if cnpControllerName ⟨"p", "ns", "u", [("k", "1")], ⟨.ok 1⟩⟩
          = cnpControllerName ⟨"p", "ns", "u", [("k", "2")], ⟨.ok 1⟩⟩ then
        [CNPEvent.updateController
          (cnpControllerName ⟨"p", "ns", "u", [("k", "2")], ⟨.ok 1⟩⟩)]
      else
        [CNPEvent.removeController
           (cnpControllerName ⟨"p", "ns", "u", [("k", "1")], ⟨.ok 1⟩⟩),
         CNPEvent.updateController
           (cnpControllerName ⟨"p", "ns", "u", [("k", "2")], ⟨.ok 1⟩⟩)]) ∧
    alookup (updateCiliumNetworkPolicyV2 ⟨fun _ => none, fun _ => .ok 9⟩
        ⟨"p", "ns", "u", [("k", "1")], ⟨.ok 1⟩⟩
        ⟨"p", "ns", "u", [("k", "2")], ⟨.ok 1⟩⟩ ⟨[], []⟩).2.1.controllers
      (cnpControllerName ⟨"p", "ns", "u", [("k", "2")], ⟨.ok 1⟩⟩) =
      some ⟨⟨"p", "ns", "u", [("k", "2")], ⟨.ok 1⟩⟩,
        ((alookup ([] : List (String × PolicyImportMetadata))
          (cnpKey ⟨"p", "ns", "u", [("k", "2")], ⟨.ok 1⟩⟩)).getD ⟨0, none⟩).revision,
        ((alookup ([] : List (String × PolicyImportMetadata))
          (cnpKey ⟨"p", "ns", "u", [("k", "2")], ⟨.ok 1⟩⟩)).getD ⟨0, none⟩).policyImportError⟩ :=
  updateCiliumNetworkPolicyV2_annotations_only_spec
    ⟨fun _ => none, fun _ => .ok 9⟩
    ⟨"p", "ns", "u", [("k", "1")], ⟨.ok 1⟩⟩
    ⟨"p", "ns", "u", [("k", "2")], ⟨.ok 1⟩⟩ ⟨[], []⟩ 1
    (by decide) rfl (by decide)

/-- The consistency check fails exactly on the family mismatch condition of
the spec (with IPv6 always enabled and IPv4 gated by the config flag). -/
theorem isSome_ite_some {α : Type} (P : Prop) [Decidable P] (v : α) :
    (if P then some v else none).isSome = decide P := by
  by_cases h : P <;> simp [h]

theorem decide_exists_mem_any {α : Type} (l : List α) (f : α → Bool) :
    decide (∃ x ∈ l, f x = true) = l.any f := by
  rw [decide_eq_decide.mpr (List.any_eq_true (p := f) (l := l)).symm]
  exact Bool.decide_coe (l.any f)

theorem decide_exists_mem_any_not {α : Type} (l : List α) (f : α → Bool) :
    decide (∃ x ∈ l, f x = false) = l.any (fun b => !f b) := by
  have h : (∃ x ∈ l, f x = false) ↔ (l.any (fun b => !f b) = true) := by
    simp [List.any_eq_true]
  rw [decide_eq_decide.mpr h]
  exact Bool.decide_coe (l.any (fun b => !f b))

theorem areIPsConsistent_isSome (cfg : Config) (fe : IP)
    (se : K8sServiceEndpoint) :
    (areIPsConsistent (!cfg.ipv4Disabled) fe.isV4 se).isSome
      = familyMismatch cfg fe se := by
  cases hfe : fe.isV4 <;> cases hd : cfg.ipv4Disabled <;>
    simp [areIPsConsistent, familyMismatch, hfe, hd, isSome_ite_some,
      decide_exists_mem_any, decide_exists_mem_any_not]

/-- C4 counterexample: with disable-k8s-services set, a non-headless IPv4
service with an IPv6 backend is not rejected (the handler returns nil), so
rejection is not equivalent to the family-mismatch condition for every
service with frontend and backends. -/
theorem addK8sSVCs_reject_iff_cex :
    (addK8sSVCs ⟨true, false, false⟩ ⟨fun _ _ _ => .ok 1, fun _ _ => none⟩
        ⟨some (.v4 10 0 0 1), false, [], [], [("p", ⟨.tcp, 80, 0⟩)]⟩
        ⟨[.v6 "fd00--1"], [("p", ⟨.tcp, 8080⟩)]⟩).1 = none ∧
    familyMismatch ⟨true, false, false⟩ (.v4 10 0 0 1)
        ⟨[.v6 "fd00--1"], [("p", ⟨.tcp, 8080⟩)]⟩ = true ∧
    ¬ ((addK8sSVCs ⟨true, false, false⟩ ⟨fun _ _ _ => .ok 1, fun _ _ => none⟩
          ⟨some (.v4 10 0 0 1), false, [], [], [("p", ⟨.tcp, 80, 0⟩)]⟩
          ⟨[.v6 "fd00--1"], [("p", ⟨.tcp, 8080⟩)]⟩).1.isSome
        = familyMismatch ⟨true, false, false⟩ (.v4 10 0 0 1)
            ⟨[.v6 "fd00--1"], [("p", ⟨.tcp, 8080⟩)]⟩) := by
  refine ⟨rfl, rfl, by decide⟩

/-- C4 amended: with east-west LB enabled and for a non-headless service
with a frontend IP, both the install and the uninstall path return an error
exactly when the frontend family differs from some backend family or from
the enabled IP family, and on rejection no datapath call has been made and
the service info is untouched (no partial install). -/
theorem addDelK8sSVCs_reject_iff_family_mismatch
    (cfg : Config) (env : LBEnv) (svcInfo : K8sServiceInfo)
    (se : K8sServiceEndpoint) (fe : IP)
    (hflag : cfg.disableK8sServices = false)
    (hhead : svcInfo.isHeadless = false)
    (hfe : svcInfo.feIP = some fe) :
    ((addK8sSVCs cfg env svcInfo se).1.isSome = familyMismatch cfg fe se) ∧
    ((delK8sSVCs cfg svcInfo se).1.isSome = familyMismatch cfg fe se) ∧
    (familyMismatch cfg fe se = true →
      (addK8sSVCs cfg env svcInfo se).2.1 = svcInfo ∧
      (addK8sSVCs cfg env svcInfo se).2.2 = [] ∧
      (delK8sSVCs cfg svcInfo se).2 = []) := by
  have hcons := areIPsConsistent_isSome cfg fe se
  cases hc : areIPsConsistent (!cfg.ipv4Disabled) fe.isV4 se with
  | none =>
    rw [hc] at hcons
    refine ⟨?_, ?_, ?_⟩ <;>
      simp [addK8sSVCs, delK8sSVCs, hflag, hhead, hfe, ipOptIsV4, hc, ← hcons]
  | some e =>
    rw [hc] at hcons
    refine ⟨?_, ?_, ?_⟩ <;>
      simp [addK8sSVCs, delK8sSVCs, hflag, hhead, hfe, ipOptIsV4, hc, ← hcons]

/-- Witness for C4 (amended) at a concrete enabled IPv4 service with one
IPv6 backend, which is rejected with no datapath call. -/
theorem addDelK8sSVCs_reject_iff_witness :
    ((addK8sSVCs ⟨false, false, false⟩ ⟨fun _ _ _ => .ok 1, fun _ _ => none⟩
        ⟨some (.v4 10 0 0 1), false, [], [], [("p", ⟨.tcp, 80, 0⟩)]⟩
        ⟨[.v6 "fd00--1"], []⟩).1.isSome
      = familyMismatch ⟨false, false, false⟩ (.v4 10 0 0 1) ⟨[.v6 "fd00--1"], []⟩) ∧
    ((delK8sSVCs ⟨false, false, false⟩
        ⟨some (.v4 10 0 0 1), false, [], [], [("p", ⟨.tcp, 80, 0⟩)]⟩
        ⟨[.v6 "fd00--1"], []⟩).1.isSome
      = familyMismatch ⟨false, false, false⟩ (.v4 10 0 0 1) ⟨[.v6 "fd00--1"], []⟩) ∧
    ((addK8sSVCs ⟨false, false, false⟩ ⟨fun _ _ _ => .ok 1, fun _ _ => none⟩
          ⟨some (.v4 10 0 0 1), false, [], [], [("p", ⟨.tcp, 80, 0⟩)]⟩
          ⟨[.v6 "fd00--1"], []⟩).2.1
        = ⟨some (.v4 10 0 0 1), false, [], [], [("p", ⟨.tcp, 80, 0⟩)]⟩ ∧
      (addK8sSVCs ⟨false, false, false⟩ ⟨fun _ _ _ => .ok 1, fun _ _ => none⟩
          ⟨some (.v4 10 0 0 1), false, [], [], [("p", ⟨.tcp, 80, 0⟩)]⟩
          ⟨[.v6 "fd00--1"], []⟩).2.2 = [] ∧
      (delK8sSVCs ⟨false, false, false⟩
          ⟨some (.v4 10 0 0 1), false, [], [], [("p", ⟨.tcp, 80, 0⟩)]⟩
          ⟨[.v6 "fd00--1"], []⟩).2 = []) :=
  ⟨(addDelK8sSVCs_reject_iff_family_mismatch
      ⟨false, false, false⟩ ⟨fun _ _ _ => .ok 1, fun _ _ => none⟩
      ⟨some (.v4 10 0 0 1), false, [], [], [("p", ⟨.tcp, 80, 0⟩)]⟩
      ⟨[.v6 "fd00--1"], []⟩ (.v4 10 0 0 1) rfl rfl rfl).1,
   (addDelK8sSVCs_reject_iff_family_mismatch
      ⟨false, false, false⟩ ⟨fun _ _ _ => .ok 1, fun _ _ => none⟩
      ⟨some (.v4 10 0 0 1), false, [], [], [("p", ⟨.tcp, 80, 0⟩)]⟩
      ⟨[.v6 "fd00--1"], []⟩ (.v4 10 0 0 1) rfl rfl rfl).2.1,
   (addDelK8sSVCs_reject_iff_family_mismatch
      ⟨false, false, false⟩ ⟨fun _ _ _ => .ok 1, fun _ _ => none⟩
      ⟨some (.v4 10 0 0 1), false, [], [], [("p", ⟨.tcp, 80, 0⟩)]⟩
      ⟨[.v6 "fd00--1"], []⟩ (.v4 10 0 0 1) rfl rfl rfl).2.2 rfl⟩

/-- C5 counterexample: with both the service and the endpoints entry present
but the datapath deletion failing (an IPv4 frontend with an IPv6 backend),
the delete branch of syncLB returns the error and retains both table
entries, so the unconditional both-present behaviour of the claim fails. -/
theorem syncLB_del_cex :
    (syncLB ⟨false, false, false⟩ ⟨fun _ _ _ => .ok 1, fun _ _ => none⟩
        none none (some ⟨"s", "ns"⟩)
        ⟨[(⟨"s", "ns"⟩, ⟨some (.v4 10 0 0 1), false, [], [], [("p", ⟨.tcp, 80, 0⟩)]⟩)],
         [(⟨"s", "ns"⟩, ⟨[.v6 "fd00--1"], []⟩)], []⟩).1.isSome = true ∧
    (syncLB ⟨false, false, false⟩ ⟨fun _ _ _ => .ok 1, fun _ _ => none⟩
        none none (some ⟨"s", "ns"⟩)
        ⟨[(⟨"s", "ns"⟩, ⟨some (.v4 10 0 0 1), false, [], [], [("p", ⟨.tcp, 80, 0⟩)]⟩)],
         [(⟨"s", "ns"⟩, ⟨[.v6 "fd00--1"], []⟩)], []⟩).2.1 =
      ⟨[(⟨"s", "ns"⟩, ⟨some (.v4 10 0 0 1), false, [], [], [("p", ⟨.tcp, 80, 0⟩)]⟩)],
       [(⟨"s", "ns"⟩, ⟨[.v6 "fd00--1"], []⟩)], []⟩ ∧
    alookup (syncLB ⟨false, false, false⟩ ⟨fun _ _ _ => .ok 1, fun _ _ => none⟩
        none none (some ⟨"s", "ns"⟩)
        ⟨[(⟨"s", "ns"⟩, ⟨some (.v4 10 0 0 1), false, [], [], [("p", ⟨.tcp, 80, 0⟩)]⟩)],
         [(⟨"s", "ns"⟩, ⟨[.v6 "fd00--1"], []⟩)], []⟩).2.1.k8sServices
      ⟨"s", "ns"⟩ ≠ none := by
  refine ⟨rfl, rfl, by decide⟩

/-- C5 amended: the delete branch of syncLB drops the endpoints entry when
the service side is absent and the service entry when the endpoints side is
absent, in both cases silently with no datapath call; with both sides
present it runs the datapath uninstall and drops both entries on success,
while on uninstall failure it returns the error and retains both entries. -/
theorem syncLB_del_spec (cfg : Config) (env : LBEnv)
    (sn : K8sServiceNamespace) (lb : LoadBalancerState) :
    (alookup lb.k8sServices sn = none →
      syncLB cfg env none none (some sn) lb =
        (none, { lb with k8sEndpoints := aerase lb.k8sEndpoints sn }, [])) ∧
    (∀ si, alookup lb.k8sServices sn = some si →
      alookup lb.k8sEndpoints sn = none →
      syncLB cfg env none none (some sn) lb =
        (none, { lb with k8sServices := aerase lb.k8sServices sn }, [])) ∧
    (∀ si ep, alookup lb.k8sServices sn = some si →
      alookup lb.k8sEndpoints sn = some ep →
      (delK8sSVCs cfg si ep).1 = none →
      syncLB cfg env none none (some sn) lb =
        (none,
          { lb with
            k8sServices := aerase lb.k8sServices sn,
            k8sEndpoints := aerase lb.k8sEndpoints sn },
          (delK8sSVCs cfg si ep).2)) ∧
    (∀ si ep e, alookup lb.k8sServices sn = some si →
      alookup lb.k8sEndpoints sn = some ep →
      (delK8sSVCs cfg si ep).1 = some e →
      syncLB cfg env none none (some sn) lb =
        (some e, lb, (delK8sSVCs cfg si ep).2)) := by
  refine ⟨?_, ?_, ?_, ?_⟩
  · intro h
    simp [syncLB, syncLBdel, h]
  · intro si hs he
    simp [syncLB, syncLBdel, hs, he]
  · intro si ep hs he hd
    rcases hdel : delK8sSVCs cfg si ep with ⟨e1, calls⟩
    rw [hdel] at hd
    simp only at hd
    subst hd
    simp [syncLB, syncLBdel, hs, he, hdel]
  · intro si ep e hs he hd
    rcases hdel : delK8sSVCs cfg si ep with ⟨e1, calls⟩
    rw [hdel] at hd
    simp only at hd
    subst hd
    simp [syncLB, syncLBdel, hs, he, hdel]

/-- Witness for C5 (amended): a state with only a service entry, whose
delete drops that entry silently. -/
theorem syncLB_del_witness :
    syncLB ⟨false, false, false⟩ ⟨fun _ _ _ => .ok 1, fun _ _ => none⟩
        none none (some ⟨"s", "ns"⟩)
        ⟨[(⟨"s", "ns"⟩, ⟨some (.v4 10 0 0 1), false, [], [], []⟩)], [], []⟩ =
      (none,
        { (⟨[(⟨"s", "ns"⟩, ⟨some (.v4 10 0 0 1), false, [], [], []⟩)], [], []⟩ :
            LoadBalancerState) with
          k8sServices :=
            aerase [(⟨"s", "ns"⟩, ⟨some (.v4 10 0 0 1), false, [], [], []⟩)]
              ⟨"s", "ns"⟩ },
        []) :=
  (syncLB_del_spec ⟨false, false, false⟩ ⟨fun _ _ _ => .ok 1, fun _ _ => none⟩
      ⟨"s", "ns"⟩
      ⟨[(⟨"s", "ns"⟩, ⟨some (.v4 10 0 0 1), false, [], [], []⟩)], [], []⟩).2.1
    ⟨some (.v4 10 0 0 1), false, [], [], []⟩ rfl rfl

/-- One-step unfolding of the retry loop. -/
theorem statusLoop_succ (env : StatusEnv) (rev : Nat)
    (importErr waitErr : Option Err) (fuel n : Nat) (lastErr : Option Err) :
    statusLoop env rev importErr waitErr (fuel + 1) n lastErr =
      match env.fetch n with
      | .error e => (.storeErr e, [])
      | .ok serverRule =>
        let cnpns := statusAttemptPayload serverRule rev importErr waitErr
        match env.write n cnpns with
        | none => (.done none, [StatusEvent.write n cnpns])
        | some we =>
          match statusLoop env rev importErr waitErr fuel (n + 1) (some we) with
          | (exitR, evs) =>
            (exitR, StatusEvent.write n cnpns :: StatusEvent.sleep 200 :: evs) :=
  rfl

/-- The retry loop performs at most `fuel` write attempts. -/
theorem statusLoop_writeCount_le (env : StatusEnv) (rev : Nat)
    (importErr waitErr : Option Err) :
    ∀ fuel n lastErr,
      writeCount (statusLoop env rev importErr waitErr fuel n lastErr).2 ≤ fuel := by
  intro fuel
  induction fuel with
  | zero =>
    intro n lastErr
    simp [statusLoop, writeCount]
  | succ fuel ih =>
    intro n lastErr
    cases hfetch : env.fetch n with
    | error e => simp [statusLoop, hfetch, writeCount]
    | ok serverRule =>
      cases hw : env.write n (statusAttemptPayload serverRule rev importErr waitErr) with
      | none =>
        simp [statusLoop, hfetch, hw, writeCount, List.countP_cons, isWriteEvent]
      | some we =>
        have hle := ih (n + 1) (some we)
        simp only [statusLoop, hfetch, hw]
        simp only [writeCount, List.countP_cons, isWriteEvent] at hle ⊢
        simp
        omega

/-- Every back-off sleep in the retry-loop trace is 200 ms. -/
theorem statusLoop_sleep_200 (env : StatusEnv) (rev : Nat)
    (importErr waitErr : Option Err) :
    ∀ fuel n lastErr m,
      StatusEvent.sleep m ∈ (statusLoop env rev importErr waitErr fuel n lastErr).2 →
      m = 200 := by
  intro fuel
  induction fuel with
  | zero =>
    intro n lastErr m hm
    simp [statusLoop] at hm
  | succ fuel ih =>
    intro n lastErr m hm
    cases hfetch : env.fetch n with
    | error e =>
      simp [statusLoop, hfetch] at hm
    | ok serverRule =>
      cases hw : env.write n (statusAttemptPayload serverRule rev importErr waitErr) with
      | none =>
        simp [statusLoop, hfetch, hw] at hm
      | some we =>
        simp only [statusLoop, hfetch, hw, List.mem_cons] at hm
        rcases hm with hm | hm | hm
        · exact absurd hm (by simp)
        · injection hm
        · exact ih (n + 1) (some we) m hm

/-- When every store fetch succeeds and every write fails, the retry loop
uses all its attempts, sleeps after each of them, and ends with the result
of the final write. -/
theorem statusLoop_all_fail (env : StatusEnv) (rev : Nat)
    (importErr waitErr : Option Err)
    (hf : ∀ m, fetchOk (env.fetch m) = true)
    (hw : ∀ m s, (env.write m s).isSome = true) :
    ∀ fuel n lastErr, ∃ c, env.fetch (n + fuel) = Except.ok c ∧
      (statusLoop env rev importErr waitErr (fuel + 1) n lastErr).1 =
        .done (env.write (n + fuel) (statusAttemptPayload c rev importErr waitErr)) ∧
      writeCount (statusLoop env rev importErr waitErr (fuel + 1) n lastErr).2
        = fuel + 1 ∧
      sleepCount (statusLoop env rev importErr waitErr (fuel + 1) n lastErr).2
        = fuel + 1 := by
  intro fuel
  induction fuel with
  | zero =>
    intro n lastErr
    cases hfetch : env.fetch n with
    | error e =>
      have hn := hf n
      rw [hfetch] at hn
      simp [fetchOk] at hn
    | ok c =>
      refine ⟨c, by simpa using hfetch, ?_⟩
      have hws := hw n (statusAttemptPayload c rev importErr waitErr)
      cases hwr : env.write n (statusAttemptPayload c rev importErr waitErr) with
      | none =>
        rw [hwr] at hws
        simp at hws
      | some we =>
        simp [statusLoop, hfetch, hwr, writeCount, sleepCount,
          List.countP_cons, isWriteEvent, isSleepEvent]
  | succ fuel ih =>
    intro n lastErr
    cases hfetch : env.fetch n with
    | error e =>
      have hn := hf n
      rw [hfetch] at hn
      simp [fetchOk] at hn
    | ok c0 =>
      have hws := hw n (statusAttemptPayload c0 rev importErr waitErr)
      cases hwr : env.write n (statusAttemptPayload c0 rev importErr waitErr) with
      | none =>
        rw [hwr] at hws
        simp at hws
      | some we =>
        obtain ⟨c, hc, hexit, hwc, hsc⟩ := ih (n + 1) (some we)
        have hidx : n + 1 + fuel = n + (fuel + 1) := by omega
        rw [hidx] at hc hexit
        rcases hrec : statusLoop env rev importErr waitErr (fuel + 1) (n + 1) (some we)
          with ⟨le2, evs2⟩
        rw [hrec] at hexit hwc hsc
        simp only at hexit hwc hsc
        have hstep : statusLoop env rev importErr waitErr (fuel + 1 + 1) n lastErr
            = (le2, StatusEvent.write n (statusAttemptPayload c0 rev importErr waitErr)
                :: StatusEvent.sleep 200 :: evs2) := by
          conv_lhs => rw [statusLoop_succ]
          simp only [hfetch, hwr, hrec]
        refine ⟨c, hc, ?_, ?_, ?_⟩
        · rw [hstep]
          exact hexit
        · rw [hstep]
          simp only [writeCount, List.countP_cons, isWriteEvent] at hwc ⊢
          simp
          omega
        · rw [hstep]
          simp only [sleepCount, List.countP_cons, isSleepEvent] at hsc ⊢
          simp
          omega

/-- When the first `k` writes fail and the write of attempt `k` succeeds,
the retry loop stops after `k + 1` writes and `k` sleeps with no error
left. -/
theorem statusLoop_success_at (env : StatusEnv) (rev : Nat)
    (importErr waitErr : Option Err)
    (hf : ∀ m, fetchOk (env.fetch m) = true) :
    ∀ k fuel n lastErr, k < fuel →
      (∀ m, m < k → ∀ s, (env.write (n + m) s).isSome = true) →
      (∀ c, env.fetch (n + k) = Except.ok c →
        env.write (n + k) (statusAttemptPayload c rev importErr waitErr) = none) →
      (statusLoop env rev importErr waitErr fuel n lastErr).1 = .done none ∧
      writeCount (statusLoop env rev importErr waitErr fuel n lastErr).2 = k + 1 ∧
      sleepCount (statusLoop env rev importErr waitErr fuel n lastErr).2 = k := by
  intro k
  induction k with
  | zero =>
    intro fuel n lastErr hk hfail hsucc
    obtain ⟨fuel, rfl⟩ : ∃ f, fuel = f + 1 :=
      ⟨fuel - 1, by omega⟩
    cases hfetch : env.fetch n with
    | error e =>
      have hn := hf n
      rw [hfetch] at hn
      simp [fetchOk] at hn
    | ok c =>
      have hwr := hsucc c (by simpa using hfetch)
      rw [Nat.add_zero] at hwr
      have hstep : statusLoop env rev importErr waitErr (fuel + 1) n lastErr
          = (.done none,
             [StatusEvent.write n (statusAttemptPayload c rev importErr waitErr)]) := by
        conv_lhs => rw [statusLoop_succ]
        simp only [hfetch, hwr]
      rw [hstep]
      simp [writeCount, sleepCount, List.countP_cons, isWriteEvent, isSleepEvent]
  | succ k ih =>
    intro fuel n lastErr hk hfail hsucc
    obtain ⟨fuel, rfl⟩ : ∃ f, fuel = f + 1 :=
      ⟨fuel - 1, by omega⟩
    cases hfetch : env.fetch n with
    | error e =>
      have hn := hf n
      rw [hfetch] at hn
      simp [fetchOk] at hn
    | ok c0 =>
      have hws := hfail 0 (by omega) (statusAttemptPayload c0 rev importErr waitErr)
      rw [Nat.add_zero] at hws
      cases hwr : env.write n (statusAttemptPayload c0 rev importErr waitErr) with
      | none =>
        rw [hwr] at hws
        simp at hws
      | some we =>
        have ihk := ih fuel (n + 1) (some we) (by omega)
          (fun m hm s => by
            have hx := hfail (m + 1) (by omega) s
            rw [show n + (m + 1) = n + 1 + m by omega] at hx
            exact hx)
          (fun c hc => by
            have hx := hsucc c
              (by rw [show n + (k + 1) = n + 1 + k by omega]; exact hc)
            rw [show n + (k + 1) = n + 1 + k by omega] at hx
            exact hx)
        obtain ⟨hexit, hwc, hsc⟩ := ihk
        rcases hrec : statusLoop env rev importErr waitErr fuel (n + 1) (some we)
          with ⟨le2, evs2⟩
        rw [hrec] at hexit hwc hsc
        simp only at hexit hwc hsc
        have hstep : statusLoop env rev importErr waitErr (fuel + 1) n lastErr
            = (le2, StatusEvent.write n (statusAttemptPayload c0 rev importErr waitErr)
                :: StatusEvent.sleep 200 :: evs2) := by
          conv_lhs => rw [statusLoop_succ]
          simp only [hfetch, hwr, hrec]
        refine ⟨?_, ?_, ?_⟩
        · rw [hstep]
          exact hexit
        · rw [hstep]
          simp only [writeCount, List.countP_cons, isWriteEvent] at hwc ⊢
          simp
          omega
        · rw [hstep]
          simp only [sleepCount, List.countP_cons, isSleepEvent] at hsc ⊢
          simp
          omega

/-- C3: the status controller attempts the write at most 5 times and every
back-off sleep is 200 ms; when every fetch succeeds and every write fails it
performs exactly 5 attempts with a sleep after each failed one and returns
the error of the final write; and when the first k writes fail and attempt k
succeeds it returns the wait-for-endpoints result, so the wait error is
surfaced only when the status write succeeded. -/
theorem cnpNodeStatusController_retry_spec (env : StatusEnv) (rev : Nat)
    (importErr : Option Err) :
    (writeCount (cnpNodeStatusController env rev importErr).2 ≤ 5 ∧
      ∀ m, StatusEvent.sleep m ∈ (cnpNodeStatusController env rev importErr).2 →
        m = 200) ∧
    ((∀ m, fetchOk (env.fetch m) = true) →
      (∀ m s, (env.write m s).isSome = true) →
      ∃ c, env.fetch 4 = Except.ok c ∧
        (cnpNodeStatusController env rev importErr).1 =
          env.write 4 (statusAttemptPayload c rev importErr env.waitForEPsErr) ∧
        writeCount (cnpNodeStatusController env rev importErr).2 = 5 ∧
        sleepCount (cnpNodeStatusController env rev importErr).2 = 5) ∧
    (∀ k, k < 5 → (∀ m, fetchOk (env.fetch m) = true) →
      (∀ m, m < k → ∀ s, (env.write m s).isSome = true) →
      (∀ c, env.fetch k = Except.ok c →
        env.write k (statusAttemptPayload c rev importErr env.waitForEPsErr) = none) →
      (cnpNodeStatusController env rev importErr).1 = env.waitForEPsErr ∧
      writeCount (cnpNodeStatusController env rev importErr).2 = k + 1 ∧
      sleepCount (cnpNodeStatusController env rev importErr).2 = k) := by
  refine ⟨⟨?_, ?_⟩, ?_, ?_⟩
  · exact statusLoop_writeCount_le env rev importErr env.waitForEPsErr 5 0 none
  · exact fun m hm =>
      statusLoop_sleep_200 env rev importErr env.waitForEPsErr 5 0 none m hm
  · intro hfAll hwAll
    obtain ⟨c, hc, hexit, hwc, hsc⟩ :=
      statusLoop_all_fail env rev importErr env.waitForEPsErr hfAll hwAll 4 0 none
    rw [show (0 : Nat) + 4 = 4 from rfl] at hc hexit
    refine ⟨c, hc, ?_, hwc, hsc⟩
    have hws := hwAll 4 (statusAttemptPayload c rev importErr env.waitForEPsErr)
    cases hwx : env.write 4 (statusAttemptPayload c rev importErr env.waitForEPsErr) with
    | none =>
      rw [hwx] at hws
      simp at hws
    | some e =>
      rw [hwx] at hexit
      simp [cnpNodeStatusController, hexit]
  · intro k hk hfAll hfail hsucc
    obtain ⟨hexit, hwc, hsc⟩ :=
      statusLoop_success_at env rev importErr env.waitForEPsErr hfAll k 5 0 none hk
        (fun m hm s => by simpa using hfail m hm s)
        (fun c hc => by
          have hx := hsucc c (by simpa using hc)
          simpa using hx)
    refine ⟨?_, hwc, hsc⟩
    simp [cnpNodeStatusController, hexit]

/-- Witness for C3 at a concrete environment whose first write succeeds: the
controller returns the wait-for-endpoints error after one write attempt and
no sleep. -/
theorem cnpNodeStatusController_retry_witness :
    (cnpNodeStatusController
        ⟨some "wait timeout", fun _ => .ok ⟨"p", "ns", "u", [], ⟨.ok 1⟩⟩,
         fun _ _ => none⟩ 3 none).1 =
      (⟨some "wait timeout", fun _ => .ok ⟨"p", "ns", "u", [], ⟨.ok 1⟩⟩,
        fun _ _ => none⟩ : StatusEnv).waitForEPsErr ∧
    writeCount (cnpNodeStatusController
        ⟨some "wait timeout", fun _ => .ok ⟨"p", "ns", "u", [], ⟨.ok 1⟩⟩,
         fun _ _ => none⟩ 3 none).2 = 1 ∧
    sleepCount (cnpNodeStatusController
        ⟨some "wait timeout", fun _ => .ok ⟨"p", "ns", "u", [], ⟨.ok 1⟩⟩,
         fun _ _ => none⟩ 3 none).2 = 0 :=
  (cnpNodeStatusController_retry_spec
      ⟨some "wait timeout", fun _ => .ok ⟨"p", "ns", "u", [], ⟨.ok 1⟩⟩,
       fun _ _ => none⟩ 3 none).2.2 0 (by omega)
    (fun _ => rfl) (fun m hm _ => absurd hm (by omega)) (fun _ _ => rfl)

/-! Lemmas about port maps and the install loop, leading to idempotence of
the Service add handler. -/

/-- The keys of a cons. -/
theorem akeys_cons {α β : Type} (p : α × β) (l : List (α × β)) :
    akeys (p :: l) = p.1 :: akeys l :=
  rfl

/-- A missing lookup means the key is not among the keys. -/
theorem not_mem_akeys_of_alookup_none {α β : Type} [DecidableEq α] :
    ∀ (l : List (α × β)) (k : α), alookup l k = none → k ∉ akeys l := by
  intro l
  induction l with
  | nil =>
    intro k _ hm
    simp [akeys] at hm
  | cons p rest ih =>
    intro k h hm
    by_cases hpk : p.1 = k
    · simp only [alookup, if_pos hpk] at h
      exact Option.noConfusion h
    · simp only [alookup, if_neg hpk] at h
      rcases List.mem_cons.mp (by rw [akeys_cons] at hm; exact hm) with hm1 | hm2
      · exact hpk hm1.symm
      · exact ih k h hm2

/-- The key list is determined by the port signatures. -/
theorem akeys_eq_map_portSig (l : List (String × FEPort)) :
    akeys l = (l.map portSig).map (fun t => t.1) := by
  induction l with
  | nil => rfl
  | cons p rest ih =>
    rw [akeys_cons, List.map_cons, List.map_cons, ih]
    rfl

/-- A port entry with the same signature as the head matches a lookup into
the list headed by it. -/
theorem portMatches_head (kp q : String × FEPort) (bs : List (String × FEPort))
    (h : portSig kp = portSig q) : portMatches (q :: bs) kp = true := by
  rcases kp with ⟨n1, p1⟩
  rcases q with ⟨n2, p2⟩
  simp only [portSig, Prod.mk.injEq] at h
  simp [portMatches, alookup, h.1, h.2.1, h.2.2]

/-- A lookup for a key different from the head skips the head. -/
theorem portMatches_tail (kp q : String × FEPort) (bs : List (String × FEPort))
    (h : kp.1 ≠ q.1) : portMatches (q :: bs) kp = portMatches bs kp := by
  have hqk : ¬ q.1 = kp.1 := fun hx => h hx.symm
  simp [portMatches, alookup, hqk]

/-- Signature-equal port lists with duplicate-free names on the right-hand
side match entry by entry. -/
theorem portMatches_of_sig :
    ∀ a b : List (String × FEPort), a.map portSig = b.map portSig →
      (akeys b).Nodup → ∀ kp ∈ a, portMatches b kp = true := by
  intro a
  induction a with
  | nil =>
    intro b _ _ kp hkp
    exact absurd hkp (List.not_mem_nil kp)
  | cons kp0 as ih =>
    intro b hsig hnd kp hkp
    cases b with
    | nil => exact absurd hsig (by simp)
    | cons q bs =>
      simp only [List.map_cons, List.cons.injEq] at hsig
      obtain ⟨hhead, htail⟩ := hsig
      have hndq : q.1 ∉ akeys bs ∧ (akeys bs).Nodup := by
        rw [akeys_cons] at hnd
        exact List.nodup_cons.mp hnd
      rcases List.mem_cons.mp hkp with hkp1 | hkp1
      · subst hkp1
        exact portMatches_head kp q bs hhead
      · have hmem : kp.1 ∈ akeys as := by
          rw [akeys_eq_map_portSig]
          exact List.mem_map.mpr
            ⟨portSig kp, List.mem_map.mpr ⟨kp, hkp1, rfl⟩, rfl⟩
        have hkeys : akeys as = akeys bs := by
          rw [akeys_eq_map_portSig, akeys_eq_map_portSig, htail]
        have hne : kp.1 ≠ q.1 := by
          intro hx
          rw [hkeys] at hmem
          exact hndq.1 (hx ▸ hmem)
        rw [portMatches_tail kp q bs hne]
        exact ih bs htail hndq.2 kp hkp1

/-- Signature-equal port lists with duplicate-free names on the right are
equal up to IDs. -/
theorem portsEqualIgnoreID_of_sig (a b : List (String × FEPort))
    (hsig : a.map portSig = b.map portSig) (hnd : (akeys b).Nodup) :
    portsEqualIgnoreID a b = true := by
  have hlen : a.length = b.length := by
    have hx := congrArg List.length hsig
    simpa using hx
  have hall : ∀ kp ∈ a, portMatches b kp = true :=
    portMatches_of_sig a b hsig hnd
  simp only [portsEqualIgnoreID, Bool.and_eq_true, decide_eq_true_eq,
    List.all_eq_true]
  exact ⟨hlen, hall⟩

/-- Two service infos agreeing on all fields and on the port signatures are
equal in the sense of the dedup equality, provided the right-hand port names
are duplicate-free. -/
theorem equalsInfo_of_fields (a b : K8sServiceInfo)
    (h1 : a.feIP = b.feIP) (h2 : a.isHeadless = b.isHeadless)
    (h3 : a.labels = b.labels) (h4 : a.selector = b.selector)
    (h5 : a.ports.map portSig = b.ports.map portSig)
    (hnd : (akeys b.ports).Nodup) :
    a.equalsInfo b = true := by
  have hport := portsEqualIgnoreID_of_sig a.ports b.ports h5 hnd
  simp [K8sServiceInfo.equalsInfo, h1, h2, h3, h4, hport]

/-- The port-parsing fold keeps the port names duplicate-free. -/
theorem foldl_addPortIfAbsent_keys_nodup :
    ∀ (l : List SvcPort) (acc : List (String × FEPort)),
      (akeys acc).Nodup → (akeys (l.foldl addPortIfAbsent acc)).Nodup := by
  intro l
  induction l with
  | nil =>
    intro acc h
    simpa using h
  | cons p rest ih =>
    intro acc h
    simp only [List.foldl_cons]
    apply ih
    unfold addPortIfAbsent
    cases hl : alookup acc p.name with
    | some q => exact h
    | none =>
      have hnot : p.name ∉ akeys acc := not_mem_akeys_of_alookup_none acc p.name hl
      have hap : akeys (acc ++ [(p.name, (⟨p.protocol, p.port, 0⟩ : FEPort))])
          = akeys acc ++ [p.name] := by
        simp [akeys]
      rw [hap, List.nodup_append]
      refine ⟨h, List.nodup_singleton _, ?_⟩
      intro a ha hb
      rw [List.mem_singleton] at hb
      subst hb
      exact hnot ha

/-- The parsed service ports have duplicate-free names. -/
theorem parseSvcPorts_keys_nodup (l : List SvcPort) :
    (akeys (parseSvcPorts l)).Nodup :=
  foldl_addPortIfAbsent_keys_nodup l [] (by simp [akeys])

/-- The install loop only rewrites port IDs: the port signatures are kept. -/
theorem addLoop_portSig (env : LBEnv) (feIP : Option IP)
    (se : K8sServiceEndpoint) :
    ∀ (ps : List (String × FEPort)) (processed : List Nat),
      ((addLoop env feIP se processed ps).1).map portSig = ps.map portSig := by
  intro ps
  induction ps with
  | nil => intro processed; simp [addLoop]
  | cons kp rest ih =>
    intro processed
    rcases kp with ⟨name, fePort⟩
    by_cases hmem : fePort.port ∈ processed
    · simp [addLoop, hmem, portSig, ih]
    · by_cases hid : fePort.id = 0
      · cases hacq : env.acquireID fePort.protocol feIP fePort.port with
        | error e => simp [addLoop, hmem, hid, hacq, portSig, ih]
        | ok newID => simp [addLoop, hmem, hid, hacq, portSig, ih]
      · simp [addLoop, hmem, hid, portSig, ih]

/-- The datapath install pass only rewrites the port IDs of the service
info; every other field and the port signatures are preserved. -/
theorem addK8sSVCs_fields (cfg : Config) (env : LBEnv)
    (si : K8sServiceInfo) (se : K8sServiceEndpoint) :
    (addK8sSVCs cfg env si se).2.1.feIP = si.feIP ∧
    (addK8sSVCs cfg env si se).2.1.isHeadless = si.isHeadless ∧
    (addK8sSVCs cfg env si se).2.1.labels = si.labels ∧
    (addK8sSVCs cfg env si se).2.1.selector = si.selector ∧
    (addK8sSVCs cfg env si se).2.1.ports.map portSig = si.ports.map portSig := by
  by_cases hflag : cfg.disableK8sServices
  · simp [addK8sSVCs, hflag]
  · by_cases hhead : si.isHeadless
    · simp [addK8sSVCs, hflag, hhead]
    · cases hc : areIPsConsistent (!cfg.ipv4Disabled) (ipOptIsV4 si.feIP) se with
      | some e => simp [addK8sSVCs, hflag, hhead, hc]
      | none => simp [addK8sSVCs, hflag, hhead, hc, addLoop_portSig]

/-- The ports of a parsed service are the parsed ports of its spec. -/
theorem parseSvcV1_ports (svc : Service) (si : K8sServiceInfo)
    (hp : parseSvcV1 svc = some si) : si.ports = parseSvcPorts svc.ports := by
  by_cases hty : svcTypeSupported svc.svcType
  · by_cases hraw : svc.clusterIP.raw = ""
    · simp [parseSvcV1, hty, hraw] at hp
    · simp only [parseSvcV1, hty, if_true, if_neg hraw, Option.some.injEq] at hp
      rw [← hp]
  · simp [parseSvcV1, hty] at hp

/-- The Service add handler returns before the join when the stored info
equals the parsed one up to allocated IDs. -/
theorem addK8sServiceV1_early (cfg : Config) (env : LBEnv) (svc : Service)
    (st1 : DaemonState) (newSI si2 : K8sServiceInfo)
    (hp : parseSvcV1 svc = some newSI)
    (hlook : alookup st1.lb.k8sServices ⟨svc.name, svc.nspace⟩ = some si2)
    (heq : si2.equalsInfo newSI = true) :
    addK8sServiceV1 cfg env svc st1 = (none, st1, []) := by
  simp [addK8sServiceV1, hp, hlook, heq]

/-- C8: applying the Service add handler twice with the same Service leaves
the state of the first application unchanged and issues no datapath call the
second time, because the handler returns nil before the join whenever the
stored service info equals the newly parsed one up to allocated IDs. -/
theorem addK8sServiceV1_idempotent (cfg : Config) (env : LBEnv)
    (svc : Service) (st : DaemonState) :
    (∀ newSI oldSI, parseSvcV1 svc = some newSI →
      alookup st.lb.k8sServices ⟨svc.name, svc.nspace⟩ = some oldSI →
      oldSI.equalsInfo newSI = true →
      addK8sServiceV1 cfg env svc st = (none, st, [])) ∧
    addK8sServiceV1 cfg env svc (addK8sServiceV1 cfg env svc st).2.1 =
      (none, (addK8sServiceV1 cfg env svc st).2.1, []) := by
  constructor
  · intro newSI oldSI hp hlook heq
    simp [addK8sServiceV1, hp, hlook, heq]
  · cases hp : parseSvcV1 svc with
    | none => simp [addK8sServiceV1, hp]
    | some newSI =>
      have hports := parseSvcV1_ports svc newSI hp
      have hnd : (akeys newSI.ports).Nodup := by
        rw [hports]
        exact parseSvcPorts_keys_nodup svc.ports
      cases hb : (match alookup st.lb.k8sServices ⟨svc.name, svc.nspace⟩ with
          | some oldSI => oldSI.equalsInfo newSI
          | none => false) with
      | true =>
        have hfirst : addK8sServiceV1 cfg env svc st = (none, st, []) := by
          simp [addK8sServiceV1, hp, hb]
        rw [hfirst]
        simp [addK8sServiceV1, hp, hb]
      | false =>
        rcases hsync : syncLB cfg env (some ⟨svc.name, svc.nspace⟩) none none
            { st.lb with
              k8sServices :=
                aupsert st.lb.k8sServices ⟨svc.name, svc.nspace⟩ newSI }
          with ⟨e2, lb2, c2⟩
        have hfirst : addK8sServiceV1 cfg env svc st =
            (e2, { st with lb := lb2 }, c2) := by
          simp [addK8sServiceV1, hp, hb, hsync]
        rw [hfirst]
        have hl1 : alookup
            ({ st.lb with
                k8sServices :=
                  aupsert st.lb.k8sServices ⟨svc.name, svc.nspace⟩ newSI } :
              LoadBalancerState).k8sServices ⟨svc.name, svc.nspace⟩
            = some newSI := by
          simp [alookup_aupsert]
        simp only [syncLB, syncLBadd, hl1] at hsync
        cases hep : alookup st.lb.k8sEndpoints ⟨svc.name, svc.nspace⟩ with
        | none =>
          simp only [hep, Prod.mk.injEq] at hsync
          obtain ⟨he2, hlb2, hc2⟩ := hsync
          subst hlb2
          exact addK8sServiceV1_early cfg env svc _ newSI newSI hp hl1
            (equalsInfo_of_fields newSI newSI rfl rfl rfl rfl rfl hnd)
        | some ep =>
          simp only [hep] at hsync
          rcases haddc : addK8sSVCs cfg env newSI ep with ⟨e3, si2, c3⟩
          rw [haddc] at hsync
          simp only [Prod.mk.injEq] at hsync
          obtain ⟨he2, hlb2, hc2⟩ := hsync
          subst hlb2
          obtain ⟨f1, f2, f3, f4, f5⟩ := addK8sSVCs_fields cfg env newSI ep
          rw [haddc] at f1 f2 f3 f4 f5
          simp only at f1 f2 f3 f4 f5
          refine addK8sServiceV1_early cfg env svc _ newSI si2 hp ?_
            (equalsInfo_of_fields si2 newSI f1 f2 f3 f4 f5 hnd)
          simp [alookup_aupsert]

/-- Witness for C8: the second application of a concrete Service add is a
no-op on the state the first application produced. -/
theorem addK8sServiceV1_idempotent_witness :
    addK8sServiceV1 ⟨false, false, false⟩ ⟨fun _ _ _ => .ok 7, fun _ _ => none⟩
        ⟨"api", "default", [], .clusterIPType, ⟨"10.0.0.9", some (.v4 10 0 0 9)⟩,
         [("app", "api")], [⟨"http", .tcp, 80⟩]⟩
        (addK8sServiceV1 ⟨false, false, false⟩
            ⟨fun _ _ _ => .ok 7, fun _ _ => none⟩
            ⟨"api", "default", [], .clusterIPType,
             ⟨"10.0.0.9", some (.v4 10 0 0 9)⟩,
             [("app", "api")], [⟨"http", .tcp, 80⟩]⟩ ⟨⟨[], [], []⟩, []⟩).2.1 =
      (none,
        (addK8sServiceV1 ⟨false, false, false⟩
            ⟨fun _ _ _ => .ok 7, fun _ _ => none⟩
            ⟨"api", "default", [], .clusterIPType,
             ⟨"10.0.0.9", some (.v4 10 0 0 9)⟩,
             [("app", "api")], [⟨"http", .tcp, 80⟩]⟩ ⟨⟨[], [], []⟩, []⟩).2.1,
        []) :=
  (addK8sServiceV1_idempotent ⟨false, false, false⟩
      ⟨fun _ _ _ => .ok 7, fun _ _ => none⟩
      ⟨"api", "default", [], .clusterIPType, ⟨"10.0.0.9", some (.v4 10 0 0 9)⟩,
       [("app", "api")], [⟨"http", .tcp, 80⟩]⟩ ⟨⟨[], [], []⟩, []⟩).2

end K8sWatcher
